import Mathlib

/-
  Verification of the RPC workflow runner and JSON-RPC requester of
  kurtosis-tech/ava-e2e-tests.

  Shallow embedding: Go errors are modelled as their message strings
  (`Err`), fallible calls return `Except Err α`.  The network is an
  oracle: for each RPC method the environment supplies the result of the
  k-th call of that method within one workflow invocation (results may
  vary between calls, modelling changing network state).  Wall-clock
  time is discretised at one second per `time.Sleep(time.Second)`; a
  polling wait with budget `networkAcceptanceTimeout` therefore runs at
  most `networkAcceptanceTimeout` loop iterations, exactly like the Go
  loops `for time.Since(pollStartTime) < timeout && !pred { ...; sleep 1s }`.
  Every embedded function additionally returns the list of observable
  events (RPC calls issued, with their arguments, and sleeps), so that
  claims about call ordering, retries and discarded results are statable.
-/

namespace AvaE2e

/-- Go errors are modelled by their message string. -/
abbrev Err := String

/-- Model of stacktrace.Propagate(err, msg): wraps a cause with a message. -/
def propagate (msg cause : String) : String := msg ++ ": " ++ cause

/-- Constants from rpc_workflow_runner.go (lines 13-26). The source name of
XCHAIN_ADDRESS_START is XCHAIN_ADDRESS_PREFIX = "X-". -/
def GENESIS_USERNAME : String := "genesis"

def GENESIS_PASSWORD : String := "genesis34!23"

def TRANSACTION_ACCEPTED_STATUS : String := "Accepted"

def AVA_ASSET_ID : String := "AVA"

def XCHAIN_ADDRESS_START : String := "X-"

def NO_IMPORT_INPUTS_ERROR_STR : String := "problem issuing transaction: no import inputs"

/-- AccountInfo as returned by the PChain getAccount RPC (gecko_client model
types): address, nonce and balance are decimal strings. -/
structure AccountInfo where
  address : String
  nonce : String
  balance : String
  deriving DecidableEq, Repr

/-- Validator descriptor as returned by getCurrentValidators. -/
structure Validator where
  startTime : String
  endTime : String
  stakeAmount : String
  id : String
  deriving DecidableEq, Repr

/-- Observable events of a workflow run: each RPC call issued (with the
arguments relevant to the claims) and each one-second sleep. busyWaitEv
abstracts the wall-clock gate loop before a staking/delegating start time. -/
inductive Ev where
  | getNodeIdEv : Ev
  | createUserEv (username : String) : Ev
  | importKeyEv : Ev
  | createAddressEv (username : String) : Ev
  | sendEv (amount : Int) (assetId : String) (dest : String) : Ev
  | getTxStatusEv (txnId : String) : Ev
  | createAccountEv : Ev
  | xchainExportAvaEv (dest : String) (amount : Int) : Ev
  | getAccountEv (address : String) : Ev
  | pchainImportAvaEv (dest : String) (payerNonce : Int) : Ev
  | issueTxEv (tx : String) : Ev
  | pchainExportAvaEv (amount : Int) (dest : String) (payerNonce : Int) : Ev
  | signEv (tx : String) (signer : String) : Ev
  | xchainImportAvaEv (dest : String) : Ev
  | addValidatorEv (nodeId : String) (stakeAmount : Int) (payerNonce : Int) (dest : String) : Ev
  | addDelegatorEv (nodeId : String) (stakeAmount : Int) (payerNonce : Int) (dest : String) : Ev
  | getCurrentValidatorsEv : Ev
  | sleepEv : Ev
  | busyWaitEv : Ev
  deriving DecidableEq, Repr

/-- Number of occurrences of one event in a trace. -/
def countEv (e : Ev) : List Ev → Nat
  | [] => 0
  | x :: xs => (if x = e then 1 else 0) + countEv e xs

/-- Model of Go strings.TrimPrefix(s, pre): drops pre from the front of s
when it is there, otherwise returns s unchanged. -/
def goTrimHead (s pre : String) : String :=
  if pre.toList.isPrefixOf s.toList then String.mk (s.toList.drop pre.toList.length) else s

/-- Helper for substring containment on character lists. -/
def strContainsAux (sub : List Char) : List Char → Bool
  | [] => sub.isEmpty
  | c :: rest => sub.isPrefixOf (c :: rest) || strContainsAux sub rest

/-- Model of Go strings.Contains(s, sub). -/
def goStrContains (s sub : String) : Bool :=
  strContainsAux sub.toList s.toList

/-- Decimal-digit run parser used to model strconv.Atoi. -/
def parseDigitsAux : List Char → Nat → Option Nat
  | [], acc => some acc
  | c :: rest, acc =>
    if c.isDigit then parseDigitsAux rest (acc * 10 + (c.toNat - 48)) else none

/-- Model of Go strconv.Atoi: an optional sign followed by at least one
decimal digit; anything else is an invalid-syntax error. -/
def goAtoi (s : String) : Except Err Int :=
  let invalid : Except Err Int :=
    Except.error ("strconv.Atoi: parsing " ++ s ++ ": invalid syntax")
  match s.toList with
  | [] => invalid
  | c :: rest =>
    if c = '+' then
      match rest with
      | [] => invalid
      | _ =>
        match parseDigitsAux rest 0 with
        | some n => Except.ok (Int.ofNat n)
        | none => invalid
    else if c = '-' then
      match rest with
      | [] => invalid
      | _ =>
        match parseDigitsAux rest 0 with
        | some n => Except.ok (-(Int.ofNat n))
        | none => invalid
    else
      match parseDigitsAux (c :: rest) 0 with
      | some n => Except.ok (Int.ofNat n)
      | none => invalid

/-- Timeout error message of waitForXchainTransactionAcceptance (line 338). -/
def xchainTimeoutMsg (txnId : String) : String :=
  "Timed out waiting for transaction " ++ txnId ++ " to be accepted on the XChain."

/-- Timeout error message of waitForValidatorAddition (line 359). -/
def validatorTimeoutMsg (nodeId : String) : String :=
  "Timed out waiting for validator " ++ nodeId ++ " to be accepted as a validator by the network."

/-- Timeout error message of waitForPchainNonZeroBalance (line 395). -/
def pchainTimeoutMsg (address : String) : String :=
  "Timed out waiting for PChain address " ++ address ++ " to receive funds."

/-- checkValidatorInValidators (rpc_workflow_runner.go lines 365-372). -/
def checkValidatorInValidators (nodeId : String) (validators : List Validator) : Bool :=
  validators.any (fun v => v.id = nodeId)

/-- Loop of waitForXchainTransactionAcceptance (lines 329-336): while the
budget has seconds left and the status is not accepted, query the status
(index idx of the GetTxStatus oracle), abort on a query error, sleep one
second.  After the loop (lines 337-341) a non-accepted status is the named
timeout error.  remaining is the seconds left of the acceptance timeout. -/
def waitXLoop (q : Nat → Except Err String) (txnId : String) :
    Nat → Nat → String → Except Err Unit × List Ev
  | _, 0, status =>
    if status = TRANSACTION_ACCEPTED_STATUS then (Except.ok (), [])
    else (Except.error (xchainTimeoutMsg txnId), [])
  | idx, r + 1, status =>
    if status = TRANSACTION_ACCEPTED_STATUS then (Except.ok (), [])
    else
      match q idx with
      | Except.error e =>
        (Except.error (propagate "Failed to get status." e), [Ev.getTxStatusEv txnId])
      | Except.ok s =>
        let rest := waitXLoop q txnId (idx + 1) r s
        (rest.1, Ev.getTxStatusEv txnId :: Ev.sleepEv :: rest.2)

/-- waitForXchainTransactionAcceptance (lines 322-342): one initial status
query, then the polling loop with the acceptance-timeout budget T (in
seconds). q k is the result of the k-th GetTxStatus call. -/
def waitForXchainTransactionAcceptance (T : Nat) (q : Nat → Except Err String)
    (txnId : String) : Except Err Unit × List Ev :=
  match q 0 with
  | Except.error e =>
    (Except.error (propagate "Failed to get status." e), [Ev.getTxStatusEv txnId])
  | Except.ok s =>
    let rest := waitXLoop q txnId 1 T s
    (rest.1, Ev.getTxStatusEv txnId :: rest.2)

/-- Loop of waitForValidatorAddition (lines 351-357): while budget remains
and the node is not in the validator set, sleep one second, then re-query
the validator set; abort on query error.  After the loop (lines 358-362) a
missing validator is the named timeout error. -/
def waitVLoop (q : Nat → Except Err (List Validator)) (nodeId : String) :
    Nat → Nat → List Validator → Except Err Unit × List Ev
  | _, 0, vs =>
    if checkValidatorInValidators nodeId vs then (Except.ok (), [])
    else (Except.error (validatorTimeoutMsg nodeId), [])
  | idx, r + 1, vs =>
    if checkValidatorInValidators nodeId vs then (Except.ok (), [])
    else
      match q idx with
      | Except.error e =>
        (Except.error (propagate "Could not get current validators" e),
          [Ev.sleepEv, Ev.getCurrentValidatorsEv])
      | Except.ok vs2 =>
        let rest := waitVLoop q nodeId (idx + 1) r vs2
        (rest.1, Ev.sleepEv :: Ev.getCurrentValidatorsEv :: rest.2)

/-- waitForValidatorAddition (lines 344-363): one initial validator-set
query, then the polling loop (sleep before each re-query). -/
def waitForValidatorAddition (T : Nat) (q : Nat → Except Err (List Validator))
    (nodeId : String) : Except Err Unit × List Ev :=
  match q 0 with
  | Except.error e =>
    (Except.error (propagate "Could not get current validators" e),
      [Ev.getCurrentValidatorsEv])
  | Except.ok vs =>
    let rest := waitVLoop q nodeId 1 T vs
    (rest.1, Ev.getCurrentValidatorsEv :: rest.2)

/-- Loop of waitForPchainNonZeroBalance (lines 384-393): while budget
remains and the balance string equals "0", re-query the account, abort on
query error, sleep one second.  After the loop (lines 394-398) a balance
still "0" is the named timeout error. -/
def waitPLoop (q : Nat → Except Err AccountInfo) (address : String) :
    Nat → Nat → String → Except Err Unit × List Ev
  | _, 0, balance =>
    if balance = "0" then (Except.error (pchainTimeoutMsg address), [])
    else (Except.ok (), [])
  | idx, r + 1, balance =>
    if balance = "0" then
      match q idx with
      | Except.error e =>
        (Except.error (propagate "Failed to get account information." e),
          [Ev.getAccountEv address])
      | Except.ok acct =>
        let rest := waitPLoop q address (idx + 1) r acct.balance
        (rest.1, Ev.getAccountEv address :: Ev.sleepEv :: rest.2)
    else (Except.ok (), [])

/-- waitForPchainNonZeroBalance (lines 374-399): one initial account query,
then the balance polling loop. q k is the result of the k-th GetAccount
call made by this wait. -/
def waitForPchainNonZeroBalance (T : Nat) (q : Nat → Except Err AccountInfo)
    (address : String) : Except Err Unit × List Ev :=
  match q 0 with
  | Except.error e =>
    (Except.error (propagate "Could not get PChain account information" e),
      [Ev.getAccountEv address])
  | Except.ok acct =>
    let rest := waitPLoop q address 1 T acct.balance
    (rest.1, Ev.getAccountEv address :: rest.2)

/-- getCurrentPayerNonce (lines 401-411): query the PChain account, parse
its nonce field with strconv.Atoi. acctRes is the GetAccount result used by
this fetch. -/
def getCurrentPayerNonce (acctRes : Except Err AccountInfo) (pchainAddress : String) :
    Except Err Int × List Ev :=
  match acctRes with
  | Except.error e =>
    (Except.error (propagate "Failed to get pchain account info." e),
      [Ev.getAccountEv pchainAddress])
  | Except.ok info =>
    match goAtoi info.nonce with
    | Except.error e => (Except.error (propagate "" e), [Ev.getAccountEv pchainAddress])
    | Except.ok n => (Except.ok n, [Ev.getAccountEv pchainAddress])

/-- Oracle for one AddValidatorOnSubnet invocation: the result of each RPC
call it makes (the validator-set family is indexed, it is polled). -/
structure ValidatorEnv where
  getAccountRes : Except Err AccountInfo
  addValidatorRes : Except Err String
  signRes : Except Err String
  issueTxRes : Except Err String
  getCurrentValidatorsRes : Nat → Except Err (List Validator)

/-- AddValidatorOnSubnet (lines 142-180): fetch the payer nonce, build the
add-validator transaction with payer nonce currentPayerNonce + 1, sign it,
issue it, busy-wait until the staking start time (busyWaitEv abstracts the
wall-clock gate of lines 175-177, which makes no RPC calls), then call
waitForValidatorAddition.  Line 178 of the source discards the result of
waitForValidatorAddition, so the function returns nil regardless of it. -/
def AddValidatorOnSubnet (T : Nat) (env : ValidatorEnv)
    (nodeId pchainAddress : String) (stakeAmount : Int) : Except Err Unit × List Ev :=
  match getCurrentPayerNonce env.getAccountRes pchainAddress with
  | (Except.error e, evs) =>
    (Except.error (propagate ("Failed to get payer nonce from address " ++ pchainAddress) e), evs)
  | (Except.ok currentPayerNonce, evs) =>
    let addEv := Ev.addValidatorEv nodeId stakeAmount (currentPayerNonce + 1) pchainAddress
    match env.addValidatorRes with
    | Except.error e =>
      (Except.error (propagate ("Failed to add default subnet staker " ++ nodeId) e),
        evs ++ [addEv])
    | Except.ok addStakerUnsignedTxn =>
      match env.signRes with
      | Except.error e =>
        (Except.error (propagate "Failed to sign staker transaction." e),
          evs ++ [addEv, Ev.signEv addStakerUnsignedTxn pchainAddress])
      | Except.ok addStakerSignedTxn =>
        match env.issueTxRes with
        | Except.error e =>
          (Except.error (propagate "Failed to issue staker transaction." e),
            evs ++ [addEv, Ev.signEv addStakerUnsignedTxn pchainAddress,
              Ev.issueTxEv addStakerSignedTxn])
        | Except.ok _ =>
          let w := waitForValidatorAddition T env.getCurrentValidatorsRes nodeId
          (Except.ok (),
            evs ++ [addEv, Ev.signEv addStakerUnsignedTxn pchainAddress,
              Ev.issueTxEv addStakerSignedTxn, Ev.busyWaitEv] ++ w.2)

/-- Oracle for one AddDelegatorOnSubnet invocation. -/
structure DelegatorEnv where
  getAccountRes : Except Err AccountInfo
  addDelegatorRes : Except Err String
  signRes : Except Err String
  issueTxRes : Except Err String

/-- AddDelegatorOnSubnet (lines 103-140): fetch the payer nonce, build the
add-delegator transaction with payer nonce currentPayerNonce + 1, sign it,
issue it, busy-wait until the delegation start time, return nil. -/
def AddDelegatorOnSubnet (env : DelegatorEnv)
    (delegateeNodeId pchainAddress : String) (stakeAmount : Int) : Except Err Unit × List Ev :=
  match getCurrentPayerNonce env.getAccountRes pchainAddress with
  | (Except.error e, evs) =>
    (Except.error (propagate ("Failed to get payer nonce from address " ++ pchainAddress) e), evs)
  | (Except.ok currentPayerNonce, evs) =>
    let addEv := Ev.addDelegatorEv delegateeNodeId stakeAmount (currentPayerNonce + 1) pchainAddress
    match env.addDelegatorRes with
    | Except.error e =>
      (Except.error (propagate ("Failed to add default subnet delegator " ++ pchainAddress) e),
        evs ++ [addEv])
    | Except.ok addDelegatorUnsignedTxn =>
      match env.signRes with
      | Except.error e =>
        (Except.error (propagate "Failed to sign delegator transaction." e),
          evs ++ [addEv, Ev.signEv addDelegatorUnsignedTxn pchainAddress])
      | Except.ok addDelegatorSignedTxn =>
        match env.issueTxRes with
        | Except.error e =>
          (Except.error (propagate "Failed to issue staker transaction." e),
            evs ++ [addEv, Ev.signEv addDelegatorUnsignedTxn pchainAddress,
              Ev.issueTxEv addDelegatorSignedTxn])
        | Except.ok _ =>
          (Except.ok (),
            evs ++ [addEv, Ev.signEv addDelegatorUnsignedTxn pchainAddress,
              Ev.issueTxEv addDelegatorSignedTxn, Ev.busyWaitEv])

/-- Oracle for one CreateAndSeedXChainAccountFromGenesis invocation.
createUserRes 0 is the runner-user creation, createUserRes 1 the genesis
user creation. -/
structure SeedEnv where
  createUserRes : Nat → Except Err Bool
  getNodeIdRes : Except Err String
  importKeyRes : Except Err String
  createAddressRes : Except Err String
  sendRes : Except Err String
  getTxStatusRes : Nat → Except Err String

/-- CreateAndSeedXChainAccountFromGenesis (lines 188-228).  The two
CreateUser calls (lines 193-200) are made but their errors are dropped:
the source calls stacktrace.Propagate without returning, so execution
always continues to GetNodeId.  Every later step aborts on error; on
success the new address is returned after the acceptance wait succeeds. -/
def CreateAndSeedXChainAccountFromGenesis (T : Nat) (username : String)
    (env : SeedEnv) (amount : Int) : Except Err String × List Ev :=
  let evs0 := [Ev.createUserEv username, Ev.createUserEv GENESIS_USERNAME]
  match env.getNodeIdRes with
  | Except.error e =>
    (Except.error (propagate "Could not get node id" e), evs0 ++ [Ev.getNodeIdEv])
  | Except.ok _nodeId =>
    match env.importKeyRes with
    | Except.error e =>
      (Except.error (propagate "Failed to take control of genesis account." e),
        evs0 ++ [Ev.getNodeIdEv, Ev.importKeyEv])
    | Except.ok _genesisAccountAddress =>
      match env.createAddressRes with
      | Except.error e =>
        (Except.error (propagate "Failed to create address on XChain." e),
          evs0 ++ [Ev.getNodeIdEv, Ev.importKeyEv, Ev.createAddressEv username])
      | Except.ok testAccountAddress =>
        let evs1 := evs0 ++ [Ev.getNodeIdEv, Ev.importKeyEv, Ev.createAddressEv username,
          Ev.sendEv amount AVA_ASSET_ID testAccountAddress]
        match env.sendRes with
        | Except.error e =>
          (Except.error
            (propagate ("Failed to send AVA to test account address " ++ testAccountAddress) e),
            evs1)
        | Except.ok txnId =>
          let w := waitForXchainTransactionAcceptance T env.getTxStatusRes txnId
          match w.1 with
          | Except.error e =>
            (Except.error (propagate "Failed to wait for transaction acceptance." e), evs1 ++ w.2)
          | Except.ok _ => (Except.ok testAccountAddress, evs1 ++ w.2)

/-- Oracle for one TransferAvaXChainToPChain invocation. getAccountRes 0 is
the payer-nonce fetch, getAccountRes (k+1) the k-th balance poll. -/
structure XtoPEnv where
  createAccountRes : Except Err String
  xchainExportAvaRes : Except Err String
  getTxStatusRes : Nat → Except Err String
  getAccountRes : Nat → Except Err AccountInfo
  pchainImportAvaRes : Except Err String
  issueTxRes : Except Err String

/-- TransferAvaXChainToPChain (lines 235-266): create a PChain account,
export from the XChain to it, wait for acceptance, fetch the payer nonce,
do the PChain import with payer nonce currentPayerNonce + 1, issue the
transaction.  Line 264 of the source discards the result of
waitForPchainNonZeroBalance, so the address is returned regardless of it. -/
def TransferAvaXChainToPChain (T : Nat) (env : XtoPEnv) (amount : Int) :
    Except Err String × List Ev :=
  match env.createAccountRes with
  | Except.error e =>
    (Except.error (propagate "Failed to create new account on PChain" e), [Ev.createAccountEv])
  | Except.ok pchainAddress =>
    match env.xchainExportAvaRes with
    | Except.error e =>
      (Except.error (propagate ("Failed to export AVA to pchainAddress " ++ pchainAddress) e),
        [Ev.createAccountEv, Ev.xchainExportAvaEv pchainAddress amount])
    | Except.ok txnId =>
      let w := waitForXchainTransactionAcceptance T env.getTxStatusRes txnId
      let evs1 := [Ev.createAccountEv, Ev.xchainExportAvaEv pchainAddress amount] ++ w.2
      match w.1 with
      | Except.error e => (Except.error (propagate "" e), evs1)
      | Except.ok _ =>
        match getCurrentPayerNonce (env.getAccountRes 0) pchainAddress with
        | (Except.error e, evs2) =>
          (Except.error
            (propagate ("Failed to get payer nonce from address " ++ pchainAddress) e),
            evs1 ++ evs2)
        | (Except.ok currentPayerNonce, evs2) =>
          let impEv := Ev.pchainImportAvaEv pchainAddress (currentPayerNonce + 1)
          match env.pchainImportAvaRes with
          | Except.error e =>
            (Except.error
              (propagate ("Failed import AVA to pchainAddress " ++ pchainAddress) e),
              evs1 ++ evs2 ++ [impEv])
          | Except.ok txnId2 =>
            match env.issueTxRes with
            | Except.error e =>
              (Except.error (propagate "Failed to issue importAVA transaction." e),
                evs1 ++ evs2 ++ [impEv, Ev.issueTxEv txnId2])
            | Except.ok _ =>
              let w2 := waitForPchainNonZeroBalance T
                (fun k => env.getAccountRes (k + 1)) pchainAddress
              (Except.ok pchainAddress,
                evs1 ++ evs2 ++ [impEv, Ev.issueTxEv txnId2] ++ w2.2)

/-- Oracle for one TransferAvaPChainToXChain invocation.
xchainImportAvaRes k is the result of the k-th XChain ImportAVA call. -/
structure PtoXEnv where
  getAccountRes : Except Err AccountInfo
  pchainExportAvaRes : Except Err String
  signRes : Except Err String
  issueTxRes : Except Err String
  xchainImportAvaRes : Nat → Except Err String
  getTxStatusRes : Nat → Except Err String

/-- The import retry loop of TransferAvaPChainToXChain (lines 300-314):
while the last ImportAVA call failed, an error containing
NO_IMPORT_INPUTS_ERROR_STR leads to an immediate retry of the same call
followed by a one-second sleep; any other error aborts the transfer.  The
Go loop has no retry ceiling, so the embedding carries fuel: cur is the
result of the last ImportAVA call (call idx - 1), and a none result means
the loop was still running when fuel ran out. -/
def importRetryLoop (imp : Nat → Except Err String) (xchainAddress : String) :
    Nat → Nat → Except Err String → Option (Except Err String) × List Ev
  | _, _, Except.ok txnId => (some (Except.ok txnId), [])
  | idx, fuel, Except.error e =>
    if goStrContains e NO_IMPORT_INPUTS_ERROR_STR then
      match fuel with
      | 0 => (none, [])
      | f + 1 =>
        let rest := importRetryLoop imp xchainAddress (idx + 1) f (imp idx)
        (rest.1, Ev.xchainImportAvaEv xchainAddress :: Ev.sleepEv :: rest.2)
    else
      (some (Except.error
        (propagate ("Failed import AVA to xchainAddress " ++ xchainAddress) e)), [])

/-- The initial XChain ImportAVA call (line 299) followed by the retry
loop. -/
def importAvaWithRetry (imp : Nat → Except Err String) (xchainAddress : String)
    (fuel : Nat) : Option (Except Err String) × List Ev :=
  let rest := importRetryLoop imp xchainAddress 1 fuel (imp 0)
  (rest.1, Ev.xchainImportAvaEv xchainAddress :: rest.2)

/-- TransferAvaPChainToXChain (lines 272-320): fetch the payer nonce, export
from the PChain to the xchain address stripped of its "X-" marker (line 280,
strings.TrimPrefix with XCHAIN_ADDRESS_PREFIX), sign, issue, run the XChain
ImportAVA with the retry loop (the full, unstripped xchain address), wait for
acceptance of the import transaction, and return the xchain address.  A
none result means the retry loop was still running when fuel ran out. -/
def TransferAvaPChainToXChain (T : Nat) (env : PtoXEnv)
    (pchainAddress xchainAddress : String) (amount : Int) (fuel : Nat) :
    Option (Except Err String) × List Ev :=
  let xchainAddressStripped := goTrimHead xchainAddress XCHAIN_ADDRESS_START
  match getCurrentPayerNonce env.getAccountRes pchainAddress with
  | (Except.error e, evs) =>
    (some (Except.error
      (propagate ("Failed to get current payer nonce from pchainAddress " ++ pchainAddress) e)),
      evs)
  | (Except.ok currentPayerNonce, evs) =>
    let expEv := Ev.pchainExportAvaEv amount xchainAddressStripped (currentPayerNonce + 1)
    match env.pchainExportAvaRes with
    | Except.error e =>
      (some (Except.error
        (propagate ("Failed to export AVA to xchainAddress " ++ xchainAddress) e)),
        evs ++ [expEv])
    | Except.ok unsignedTxnId =>
      match env.signRes with
      | Except.error e =>
        (some (Except.error (propagate "Failed to sign export AVA transaction." e)),
          evs ++ [expEv, Ev.signEv unsignedTxnId pchainAddress])
      | Except.ok signedTxnId =>
        match env.issueTxRes with
        | Except.error e =>
          (some (Except.error (propagate "Failed to issue importAVA transaction." e)),
            evs ++ [expEv, Ev.signEv unsignedTxnId pchainAddress, Ev.issueTxEv signedTxnId])
        | Except.ok _ =>
          let retry := importAvaWithRetry env.xchainImportAvaRes xchainAddress fuel
          let evs2 := evs ++ [expEv, Ev.signEv unsignedTxnId pchainAddress,
            Ev.issueTxEv signedTxnId] ++ retry.2
          match retry.1 with
          | none => (none, evs2)
          | some (Except.error e) => (some (Except.error e), evs2)
          | some (Except.ok txnId) =>
            let w := waitForXchainTransactionAcceptance T env.getTxStatusRes txnId
            match w.1 with
            | Except.error e =>
              (some (Except.error
                (propagate "Failed to wait for acceptance of transaction on XChain." e)),
                evs2 ++ w.2)
            | Except.ok _ => (some (Except.ok xchainAddress), evs2 ++ w.2)

/-- Oracle for one GetFundsAndStartValidating invocation: one sub-oracle per
dependent step (the two seeding invocations are distinct calls and get
distinct oracles). -/
structure GetFundsEnv where
  getNodeIdRes : Except Err String
  seedEnv1 : SeedEnv
  transferEnv : XtoPEnv
  validatorSeedEnv : SeedEnv
  validatorEnv : ValidatorEnv

/-- GetFundsAndStartValidating (lines 75-101): fetch the staker node id,
seed an XChain account from genesis, move the seed amount to a new PChain
address, seed a second XChain account from genesis, then register the node
as a default-subnet validator with that PChain address; each step's error
aborts the workflow. -/
def GetFundsAndStartValidating (T : Nat) (username : String) (env : GetFundsEnv)
    (seedAmount stakeAmount : Int) : Except Err Unit × List Ev :=
  match env.getNodeIdRes with
  | Except.error e =>
    (Except.error (propagate "Could not get staker node ID." e), [Ev.getNodeIdEv])
  | Except.ok stakerNodeId =>
    let s1 := CreateAndSeedXChainAccountFromGenesis T username env.seedEnv1 seedAmount
    match s1.1 with
    | Except.error e =>
      (Except.error (propagate "Could not seed XChain account from Genesis." e),
        Ev.getNodeIdEv :: s1.2)
    | Except.ok _ =>
      let tr := TransferAvaXChainToPChain T env.transferEnv seedAmount
      match tr.1 with
      | Except.error e =>
        (Except.error
          (propagate "Could not transfer AVA from XChain to PChain account information" e),
          Ev.getNodeIdEv :: s1.2 ++ tr.2)
      | Except.ok stakerPchainAddress =>
        let s2 := CreateAndSeedXChainAccountFromGenesis T username env.validatorSeedEnv seedAmount
        match s2.1 with
        | Except.error e =>
          (Except.error (propagate "Could not seed XChain account from Genesis." e),
            Ev.getNodeIdEv :: s1.2 ++ tr.2 ++ s2.2)
        | Except.ok _ =>
          let av := AddValidatorOnSubnet T env.validatorEnv
            stakerNodeId stakerPchainAddress stakeAmount
          match av.1 with
          | Except.error e =>
            (Except.error
              (propagate ("Could not add staker " ++ stakerNodeId ++ " to default subnet.") e),
              Ev.getNodeIdEv :: s1.2 ++ tr.2 ++ s2.2 ++ av.2)
          | Except.ok _ =>
            (Except.ok (), Ev.getNodeIdEv :: s1.2 ++ tr.2 ++ s2.2 ++ av.2)

/-- Alternating pair trace: n copies of a then b.  The polling loops of the
wait primitives and of the import retry loop produce traces of this form. -/
def repPairs (a b : Ev) : Nat → List Ev
  | 0 => []
  | n + 1 => a :: b :: repPairs a b n

/-- Model of a net/http Client: the only configuration the source touches
is the per-call Timeout (seconds; 0 means no timeout, the Go zero value). -/
structure HttpClient where
  timeout : Nat
  deriving DecidableEq, Repr

/-- The package-level default client used by the package function http.Post:
http.DefaultClient, whose Timeout is the zero value (no per-call timeout). -/
def defaultHttpClient : HttpClient := { timeout := 0 }

/-- geckoJsonRpcRequester (json_rpc_requester.go lines 46-50). -/
structure GeckoJsonRpcRequester where
  ipAddr : String
  port : Nat
  client : HttpClient
  deriving DecidableEq, Repr

/-- newGeckoJsonRpcRequester (lines 52-60): stores an http.Client whose
Timeout is the configured request timeout. -/
def newGeckoJsonRpcRequester (ipAddr : String) (port : Nat) (requestTimeout : Nat) :
    GeckoJsonRpcRequester :=
  { ipAddr := ipAddr, port := port, client := { timeout := requestTimeout } }

/-- JsonRpcError (lines 29-33); Data is irrelevant to the control flow. -/
structure JsonRpcError where
  code : Int
  message : String
  deriving DecidableEq, Repr

/-- JsonRpcResponse (lines 35-40); the Result map is irrelevant to the
control flow of makeRpcRequest, which only inspects Error.Code. -/
structure JsonRpcResponse where
  jsonRpcVersion : String
  error : JsonRpcError
  id : Int
  deriving DecidableEq, Repr

/-- The observable outcome of one HTTP POST: the status code, and the
result of reading the response body (ioutil.ReadAll can fail). -/
structure RpcHttpResponse where
  statusCode : Nat
  bodyRead : Except Err String
  deriving Repr

/-- Oracle for one makeRpcRequest invocation: the outcome of JSON
marshalling of the request, of the HTTP POST (as a function of the client
that performs it and the URL), and of unmarshalling the response body. -/
structure RpcEnv where
  marshalRes : Except Err String
  postRes : HttpClient → String → String → Except Err RpcHttpResponse
  unmarshalRes : String → Except Err JsonRpcResponse

/-- Model of Go strings.TrimLeft(endpoint, "/"): drop every leading '/'. -/
def goTrimLeftSlash (s : String) : String :=
  String.mk (s.toList.dropWhile (fun c => c = '/'))

/-- The URL makeRpcRequest posts to (line 84): host, port and the endpoint
stripped of leading '/'. -/
def urlOf (requester : GeckoJsonRpcRequester) (endpoint : String) : String :=
  "http://" ++ requester.ipAddr ++ ":" ++ toString requester.port ++ "/" ++
    goTrimLeftSlash endpoint

/-- Result of makeRpcRequest together with the POST that was performed (if
one was): which HTTP client carried it and to which URL. -/
structure RpcCallOutcome where
  result : Except Err String
  postedWith : Option HttpClient
  postedUrl : Option String
  deriving Repr

/-- makeRpcRequest (json_rpc_requester.go lines 63-121): strip leading '/'
from the endpoint, marshal the request envelope, POST it, read the response
body, fail on a non-200 status, unmarshal the envelope, fail on a non-zero
embedded error code, otherwise return the raw response body bytes.  Line 88
of the source calls the package-level http.Post — i.e. http.DefaultClient —
and not requester.client, so the POST is recorded as performed with
defaultHttpClient. -/
def makeRpcRequest (requester : GeckoJsonRpcRequester) (env : RpcEnv)
    (endpoint _method : String) : RpcCallOutcome :=
  let ep := goTrimLeftSlash endpoint
  match env.marshalRes with
  | Except.error e =>
    { result := Except.error
        (propagate ("Could not marshall request to endpoint " ++ ep ++ " to JSON") e),
      postedWith := none, postedUrl := none }
  | Except.ok requestBodyBytes =>
    let url := urlOf requester endpoint
    match env.postRes defaultHttpClient url requestBodyBytes with
    | Except.error e =>
      { result := Except.error
          (propagate ("Error occurred when making JSON RPC POST request to " ++ url) e),
        postedWith := some defaultHttpClient, postedUrl := some url }
    | Except.ok resp =>
      match resp.bodyRead with
      | Except.error e =>
        { result := Except.error (propagate "Error occurred when reading response body" e),
          postedWith := some defaultHttpClient, postedUrl := some url }
      | Except.ok responseBodyBytes =>
        if resp.statusCode ≠ 200 then
          { result := Except.error
              ("Received response with non-200 code " ++ toString resp.statusCode ++
                " and response body " ++ responseBodyBytes),
            postedWith := some defaultHttpClient, postedUrl := some url }
        else
          match env.unmarshalRes responseBodyBytes with
          | Except.error e =>
            { result := Except.error (propagate "Error unmarshalling JSON response" e),
              postedWith := some defaultHttpClient, postedUrl := some url }
          | Except.ok response =>
            if response.error.code ≠ 0 then
              { result := Except.error
                  ("RPC call failed: code " ++ toString response.error.code ++
                    " message " ++ response.error.message),
                postedWith := some defaultHttpClient, postedUrl := some url }
            else
              { result := Except.ok responseBodyBytes,
                postedWith := some defaultHttpClient, postedUrl := some url }

/-- Oracle exhibiting the discarded waitForValidatorAddition result: every
RPC step succeeds but the validator never appears in the validator set, so
the final wait can only time out. -/
def c1ValidatorEnv : ValidatorEnv :=
  { getAccountRes := Except.ok { address := "paddr", nonce := "0", balance := "10" },
    addValidatorRes := Except.ok "unsignedTxn",
    signRes := Except.ok "signedTxn",
    issueTxRes := Except.ok "issuedTxn",
    getCurrentValidatorsRes := fun _ => Except.ok [] }

/-- Oracle exhibiting the discarded waitForPchainNonZeroBalance result:
every RPC step succeeds but the PChain balance stays "0", so the final wait
can only time out. -/
def c1XtoPEnv : XtoPEnv :=
  { createAccountRes := Except.ok "paddr",
    xchainExportAvaRes := Except.ok "tx1",
    getTxStatusRes := fun _ => Except.ok "Accepted",
    getAccountRes := fun _ => Except.ok { address := "paddr", nonce := "0", balance := "0" },
    pchainImportAvaRes := Except.ok "tx2",
    issueTxRes := Except.ok "tx3" }

/-- Concrete requester and oracle for the requester claims. -/
def c2Requester : GeckoJsonRpcRequester := newGeckoJsonRpcRequester "10.0.0.1" 9650 30

/-- An RPC oracle whose every stage succeeds. -/
def c2Env : RpcEnv :=
  { marshalRes := Except.ok "reqbody",
    postRes := fun _ _ _ => Except.ok { statusCode := 200, bodyRead := Except.ok "respbody" },
    unmarshalRes := fun _ => Except.ok
      { jsonRpcVersion := "2.0", error := { code := 0, message := "" }, id := 1 } }

/-- Import oracle whose initial call fails with the not-yet-final error
message and whose first retry succeeds. -/
def c3ImpRes : Nat → Except Err String :=
  fun k =>
    if k = 0 then Except.error "problem issuing transaction: no import inputs"
    else Except.ok "importTx"

/-- PChain-to-XChain oracle around c3ImpRes on which every other step
succeeds. -/
def c3PtoXEnv : PtoXEnv :=
  { getAccountRes := Except.ok { address := "paddr", nonce := "0", balance := "50" },
    pchainExportAvaRes := Except.ok "unsignedExp",
    signRes := Except.ok "signedExp",
    issueTxRes := Except.ok "issuedExp",
    xchainImportAvaRes := c3ImpRes,
    getTxStatusRes := fun _ => Except.ok "Accepted" }

/-- Which events a TransferAvaPChainToXChain(p, x, amount) run may emit, as
far as addresses and amounts are concerned: the only account queried is p,
every PChain export goes to x stripped of the "X-" marker with the full
amount, and every XChain import targets x itself. -/
def ptoxEventSpec (p x : String) (amount : Int) (ev : Ev) : Prop :=
  match ev with
  | Ev.getAccountEv a => a = p
  | Ev.pchainExportAvaEv amt dest _ =>
    amt = amount ∧ dest = goTrimHead x XCHAIN_ADDRESS_START
  | Ev.signEv _ signer => signer = p
  | Ev.issueTxEv _ => True
  | Ev.xchainImportAvaEv dest => dest = x
  | Ev.sleepEv => True
  | Ev.getTxStatusEv _ => True
  | _ => False

/-- A PChain-to-XChain oracle on which every step succeeds at once. -/
def c10Env : PtoXEnv :=
  { getAccountRes := Except.ok { address := "P-q", nonce := "4", balance := "9" },
    pchainExportAvaRes := Except.ok "u10",
    signRes := Except.ok "s10",
    issueTxRes := Except.ok "i10",
    xchainImportAvaRes := fun _ => Except.ok "t10",
    getTxStatusRes := fun _ => Except.ok "Accepted" }

/-- A validator-registration oracle with a non-trivial nonce. -/
def c4VEnv : ValidatorEnv :=
  { getAccountRes := Except.ok { address := "paddr4", nonce := "7", balance := "10" },
    addValidatorRes := Except.ok "u4",
    signRes := Except.ok "s4",
    issueTxRes := Except.ok "i4",
    getCurrentValidatorsRes := fun _ =>
      Except.ok [{ startTime := "0", endTime := "1", stakeAmount := "5", id := "node4" }] }

/-- An XChain-to-PChain oracle with a non-trivial nonce. -/
def c4XEnv : XtoPEnv :=
  { createAccountRes := Except.ok "px4",
    xchainExportAvaRes := Except.ok "tx4",
    getTxStatusRes := fun _ => Except.ok "Accepted",
    getAccountRes := fun _ => Except.ok { address := "px4", nonce := "2", balance := "6" },
    pchainImportAvaRes := Except.ok "imp4",
    issueTxRes := Except.ok "iss4" }

/-- A seeding oracle on which both keystore CreateUser calls fail (the
users already exist) while every later step succeeds. -/
def c9Env : SeedEnv :=
  { createUserRes := fun _ => Except.error "user already exists",
    getNodeIdRes := Except.ok "nid9",
    importKeyRes := Except.ok "gen9",
    createAddressRes := Except.ok "addr9",
    sendRes := Except.ok "tx9",
    getTxStatusRes := fun _ => Except.ok "Accepted" }

/-- An RPC oracle whose every stage succeeds, for the requester contract. -/
def c7Env : RpcEnv :=
  { marshalRes := Except.ok "req7",
    postRes := fun _ _ _ => Except.ok { statusCode := 200, bodyRead := Except.ok "body7" },
    unmarshalRes := fun _ => Except.ok
      { jsonRpcVersion := "2.0", error := { code := 0, message := "" }, id := 1 } }

/-- A fully successful fund-and-validate oracle. -/
def c8Env : GetFundsEnv :=
  { getNodeIdRes := Except.ok "node4",
    seedEnv1 := c9Env,
    transferEnv := c4XEnv,
    validatorSeedEnv := c9Env,
    validatorEnv := c4VEnv }

/-
  Helper lemmas shared by several claims.
-/

theorem countEv_append (e : Ev) (l1 l2 : List Ev) :
    countEv e (l1 ++ l2) = countEv e l1 + countEv e l2 := by
  induction l1 with
  | nil => simp [countEv]
  | cons x xs ih => simp [countEv, ih]; omega

theorem countEv_repPairs (e a b : Ev) (n : Nat) :
    countEv e (repPairs a b n) =
      n * ((if a = e then 1 else 0) + (if b = e then 1 else 0)) := by
  induction n with
  | zero => simp [repPairs, countEv]
  | succ n ih =>
    simp only [repPairs, countEv, ih]
    ring

theorem countEv_eq_zero_of (e : Ev) (l : List Ev) (h : ∀ x ∈ l, x ≠ e) :
    countEv e l = 0 := by
  induction l with
  | nil => rfl
  | cons x xs ih =>
    have hx : x ≠ e := h x (List.mem_cons_self x xs)
    simp only [countEv, if_neg hx, Nat.zero_add]
    exact ih (fun y hy => h y (List.mem_cons_of_mem x hy))

theorem waitXLoop_accepted (q : Nat → Except Err String) (txnId : String) (idx r : Nat) :
    waitXLoop q txnId idx r TRANSACTION_ACCEPTED_STATUS = (Except.ok (), []) := by
  cases r <;> simp [waitXLoop]

theorem waitXLoop_timeout (q : Nat → Except Err String) (txnId : String) :
    ∀ (r idx : Nat) (status : String), status ≠ TRANSACTION_ACCEPTED_STATUS →
    (∀ k, idx ≤ k → k < idx + r →
      ∃ s, q k = Except.ok s ∧ s ≠ TRANSACTION_ACCEPTED_STATUS) →
    waitXLoop q txnId idx r status =
      (Except.error (xchainTimeoutMsg txnId),
        repPairs (Ev.getTxStatusEv txnId) Ev.sleepEv r) := by
  intro r
  induction r with
  | zero =>
    intro idx status hs _
    simp [waitXLoop, hs, repPairs]
  | succ r ih =>
    intro idx status hs h
    obtain ⟨s, hq, hsne⟩ := h idx (Nat.le_refl idx) (by omega)
    have hrec := ih (idx + 1) s hsne (fun k hk1 hk2 => h k (by omega) (by omega))
    simp [waitXLoop, hs, hq, hrec, repPairs]

theorem waitXLoop_error (q : Nat → Except Err String) (txnId : String) (e : Err) (m : Nat) :
    ∀ (r idx : Nat) (status : String), status ≠ TRANSACTION_ACCEPTED_STATUS →
    (∀ k, idx ≤ k → k < m →
      ∃ s, q k = Except.ok s ∧ s ≠ TRANSACTION_ACCEPTED_STATUS) →
    q m = Except.error e → idx ≤ m → m < idx + r →
    waitXLoop q txnId idx r status =
      (Except.error (propagate "Failed to get status." e),
        repPairs (Ev.getTxStatusEv txnId) Ev.sleepEv (m - idx) ++ [Ev.getTxStatusEv txnId]) := by
  intro r
  induction r with
  | zero =>
    intro idx status _ _ _ _ hr
    omega
  | succ r ih =>
    intro idx status hs hbef hq hle hr
    by_cases hidx : idx = m
    · subst hidx
      simp [waitXLoop, hs, hq, repPairs]
    · obtain ⟨s, hq0, hsne⟩ := hbef idx (Nat.le_refl idx) (by omega)
      have hrec := ih (idx + 1) s hsne
        (fun k hk1 hk2 => hbef k (by omega) hk2) hq (by omega) (by omega)
      have hsub : m - idx = (m - (idx + 1)) + 1 := by omega
      simp [waitXLoop, hs, hq0, hrec, hsub, repPairs]

theorem mem_waitXLoop (q : Nat → Except Err String) (txnId : String) :
    ∀ (r idx : Nat) (status : String) (ev : Ev),
      ev ∈ (waitXLoop q txnId idx r status).2 →
      ev = Ev.getTxStatusEv txnId ∨ ev = Ev.sleepEv := by
  intro r
  induction r with
  | zero =>
    intro idx status ev h
    by_cases hs : status = TRANSACTION_ACCEPTED_STATUS <;> simp [waitXLoop, hs] at h
  | succ r ih =>
    intro idx status ev h
    by_cases hs : status = TRANSACTION_ACCEPTED_STATUS
    · simp [waitXLoop, hs] at h
    · cases hq : q idx with
      | error e =>
        simp [waitXLoop, hs, hq] at h
        exact Or.inl h
      | ok s =>
        simp [waitXLoop, hs, hq] at h
        rcases h with h | h | h
        · exact Or.inl h
        · exact Or.inr h
        · exact ih (idx + 1) s ev h

theorem mem_waitX (T : Nat) (q : Nat → Except Err String) (txnId : String) (ev : Ev)
    (h : ev ∈ (waitForXchainTransactionAcceptance T q txnId).2) :
    ev = Ev.getTxStatusEv txnId ∨ ev = Ev.sleepEv := by
  cases hq : q 0 with
  | error e =>
    simp [waitForXchainTransactionAcceptance, hq] at h
    exact Or.inl h
  | ok s =>
    simp [waitForXchainTransactionAcceptance, hq] at h
    rcases h with h | h
    · exact Or.inl h
    · exact mem_waitXLoop q txnId T 1 s ev h

theorem waitForX_firstPoll (T : Nat) (q : Nat → Except Err String) (txnId : String)
    (h : q 0 = Except.ok TRANSACTION_ACCEPTED_STATUS) :
    waitForXchainTransactionAcceptance T q txnId =
      (Except.ok (), [Ev.getTxStatusEv txnId]) := by
  simp [waitForXchainTransactionAcceptance, h, waitXLoop_accepted]

theorem waitForX_timeout (T : Nat) (q : Nat → Except Err String) (txnId : String)
    (h : ∀ k, k ≤ T → ∃ s, q k = Except.ok s ∧ s ≠ TRANSACTION_ACCEPTED_STATUS) :
    waitForXchainTransactionAcceptance T q txnId =
      (Except.error (xchainTimeoutMsg txnId),
        Ev.getTxStatusEv txnId :: repPairs (Ev.getTxStatusEv txnId) Ev.sleepEv T) := by
  obtain ⟨s, hq, hs⟩ := h 0 (Nat.zero_le T)
  have hrec := waitXLoop_timeout q txnId T 1 s hs
    (fun k hk1 hk2 => h k (by omega))
  simp [waitForXchainTransactionAcceptance, hq, hrec]

theorem waitForX_error (T : Nat) (q : Nat → Except Err String) (txnId : String)
    (m : Nat) (e : Err) (hm : m ≤ T)
    (hbef : ∀ k, k < m → ∃ s, q k = Except.ok s ∧ s ≠ TRANSACTION_ACCEPTED_STATUS)
    (he : q m = Except.error e) :
    (waitForXchainTransactionAcceptance T q txnId).1 =
      Except.error (propagate "Failed to get status." e) ∧
    countEv (Ev.getTxStatusEv txnId) (waitForXchainTransactionAcceptance T q txnId).2 =
      m + 1 := by
  cases m with
  | zero =>
    simp [waitForXchainTransactionAcceptance, he, countEv]
  | succ m =>
    obtain ⟨s, hq0, hs0⟩ := hbef 0 (Nat.succ_pos m)
    have hrec := waitXLoop_error q txnId e (m + 1) T 1 s hs0
      (fun k hk1 hk2 => hbef k hk2) he (by omega) (by omega)
    simp [waitForXchainTransactionAcceptance, hq0, hrec, countEv,
      countEv_append, countEv_repPairs]
    omega

theorem waitVLoop_found (q : Nat → Except Err (List Validator)) (nodeId : String)
    (idx r : Nat) (vs : List Validator)
    (h : checkValidatorInValidators nodeId vs = true) :
    waitVLoop q nodeId idx r vs = (Except.ok (), []) := by
  cases r <;> simp [waitVLoop, h]

theorem waitVLoop_timeout (q : Nat → Except Err (List Validator)) (nodeId : String) :
    ∀ (r idx : Nat) (vs : List Validator),
    checkValidatorInValidators nodeId vs = false →
    (∀ k, idx ≤ k → k < idx + r →
      ∃ l, q k = Except.ok l ∧ checkValidatorInValidators nodeId l = false) →
    waitVLoop q nodeId idx r vs =
      (Except.error (validatorTimeoutMsg nodeId),
        repPairs Ev.sleepEv Ev.getCurrentValidatorsEv r) := by
  intro r
  induction r with
  | zero =>
    intro idx vs hs _
    simp [waitVLoop, hs, repPairs]
  | succ r ih =>
    intro idx vs hs h
    obtain ⟨l, hq, hne⟩ := h idx (Nat.le_refl idx) (by omega)
    have hrec := ih (idx + 1) l hne (fun k hk1 hk2 => h k (by omega) (by omega))
    simp [waitVLoop, hs, hq, hrec, repPairs]

theorem waitVLoop_error (q : Nat → Except Err (List Validator)) (nodeId : String)
    (e : Err) (m : Nat) :
    ∀ (r idx : Nat) (vs : List Validator),
    checkValidatorInValidators nodeId vs = false →
    (∀ k, idx ≤ k → k < m →
      ∃ l, q k = Except.ok l ∧ checkValidatorInValidators nodeId l = false) →
    q m = Except.error e → idx ≤ m → m < idx + r →
    waitVLoop q nodeId idx r vs =
      (Except.error (propagate "Could not get current validators" e),
        repPairs Ev.sleepEv Ev.getCurrentValidatorsEv (m - idx) ++
          [Ev.sleepEv, Ev.getCurrentValidatorsEv]) := by
  intro r
  induction r with
  | zero =>
    intro idx vs _ _ _ _ hr
    omega
  | succ r ih =>
    intro idx vs hs hbef hq hle hr
    by_cases hidx : idx = m
    · subst hidx
      simp [waitVLoop, hs, hq, repPairs]
    · obtain ⟨l, hq0, hne⟩ := hbef idx (Nat.le_refl idx) (by omega)
      have hrec := ih (idx + 1) l hne
        (fun k hk1 hk2 => hbef k (by omega) hk2) hq (by omega) (by omega)
      have hsub : m - idx = (m - (idx + 1)) + 1 := by omega
      simp [waitVLoop, hs, hq0, hrec, hsub, repPairs]

theorem mem_waitVLoop (q : Nat → Except Err (List Validator)) (nodeId : String) :
    ∀ (r idx : Nat) (vs : List Validator) (ev : Ev),
      ev ∈ (waitVLoop q nodeId idx r vs).2 →
      ev = Ev.getCurrentValidatorsEv ∨ ev = Ev.sleepEv := by
  intro r
  induction r with
  | zero =>
    intro idx vs ev h
    by_cases hs : checkValidatorInValidators nodeId vs <;> simp [waitVLoop, hs] at h
  | succ r ih =>
    intro idx vs ev h
    by_cases hs : checkValidatorInValidators nodeId vs
    · simp [waitVLoop, hs] at h
    · cases hq : q idx with
      | error e =>
        simp [waitVLoop, hs, hq] at h
        rcases h with h | h
        · exact Or.inr h
        · exact Or.inl h
      | ok l =>
        simp [waitVLoop, hs, hq] at h
        rcases h with h | h | h
        · exact Or.inr h
        · exact Or.inl h
        · exact ih (idx + 1) l ev h

theorem waitForV_firstPoll (T : Nat) (q : Nat → Except Err (List Validator))
    (nodeId : String) (vs : List Validator)
    (hq : q 0 = Except.ok vs) (h : checkValidatorInValidators nodeId vs = true) :
    waitForValidatorAddition T q nodeId =
      (Except.ok (), [Ev.getCurrentValidatorsEv]) := by
  simp [waitForValidatorAddition, hq, waitVLoop_found q nodeId 1 T vs h]

theorem waitForV_timeout (T : Nat) (q : Nat → Except Err (List Validator))
    (nodeId : String)
    (h : ∀ k, k ≤ T → ∃ l, q k = Except.ok l ∧
      checkValidatorInValidators nodeId l = false) :
    waitForValidatorAddition T q nodeId =
      (Except.error (validatorTimeoutMsg nodeId),
        Ev.getCurrentValidatorsEv ::
          repPairs Ev.sleepEv Ev.getCurrentValidatorsEv T) := by
  obtain ⟨l, hq, hne⟩ := h 0 (Nat.zero_le T)
  have hrec := waitVLoop_timeout q nodeId T 1 l hne
    (fun k hk1 hk2 => h k (by omega))
  simp [waitForValidatorAddition, hq, hrec]

theorem waitForV_error (T : Nat) (q : Nat → Except Err (List Validator))
    (nodeId : String) (m : Nat) (e : Err) (hm : m ≤ T)
    (hbef : ∀ k, k < m → ∃ l, q k = Except.ok l ∧
      checkValidatorInValidators nodeId l = false)
    (he : q m = Except.error e) :
    (waitForValidatorAddition T q nodeId).1 =
      Except.error (propagate "Could not get current validators" e) ∧
    countEv Ev.getCurrentValidatorsEv (waitForValidatorAddition T q nodeId).2 =
      m + 1 := by
  cases m with
  | zero =>
    simp [waitForValidatorAddition, he, countEv]
  | succ m =>
    obtain ⟨l, hq0, hne⟩ := hbef 0 (Nat.succ_pos m)
    have hrec := waitVLoop_error q nodeId e (m + 1) T 1 l hne
      (fun k hk1 hk2 => hbef k hk2) he (by omega) (by omega)
    simp [waitForValidatorAddition, hq0, hrec, countEv,
      countEv_append, countEv_repPairs]
    omega

theorem waitPLoop_nonzero (q : Nat → Except Err AccountInfo) (address : String)
    (idx r : Nat) (balance : String) (h : balance ≠ "0") :
    waitPLoop q address idx r balance = (Except.ok (), []) := by
  cases r <;> simp [waitPLoop, h]

theorem waitPLoop_timeout (q : Nat → Except Err AccountInfo) (address : String) :
    ∀ (r idx : Nat) (balance : String), balance = "0" →
    (∀ k, idx ≤ k → k < idx + r →
      ∃ a, q k = Except.ok a ∧ a.balance = "0") →
    waitPLoop q address idx r balance =
      (Except.error (pchainTimeoutMsg address),
        repPairs (Ev.getAccountEv address) Ev.sleepEv r) := by
  intro r
  induction r with
  | zero =>
    intro idx balance hb _
    simp [waitPLoop, hb, repPairs]
  | succ r ih =>
    intro idx balance hb h
    obtain ⟨a, hq, ha⟩ := h idx (Nat.le_refl idx) (by omega)
    have hrec := ih (idx + 1) a.balance ha (fun k hk1 hk2 => h k (by omega) (by omega))
    simp [waitPLoop, hb, hq, hrec, repPairs]

theorem waitPLoop_error (q : Nat → Except Err AccountInfo) (address : String)
    (e : Err) (m : Nat) :
    ∀ (r idx : Nat) (balance : String), balance = "0" →
    (∀ k, idx ≤ k → k < m → ∃ a, q k = Except.ok a ∧ a.balance = "0") →
    q m = Except.error e → idx ≤ m → m < idx + r →
    waitPLoop q address idx r balance =
      (Except.error (propagate "Failed to get account information." e),
        repPairs (Ev.getAccountEv address) Ev.sleepEv (m - idx) ++
          [Ev.getAccountEv address]) := by
  intro r
  induction r with
  | zero =>
    intro idx balance _ _ _ _ hr
    omega
  | succ r ih =>
    intro idx balance hb hbef hq hle hr
    by_cases hidx : idx = m
    · subst hidx
      simp [waitPLoop, hb, hq, repPairs]
    · obtain ⟨a, hq0, ha⟩ := hbef idx (Nat.le_refl idx) (by omega)
      have hrec := ih (idx + 1) a.balance ha
        (fun k hk1 hk2 => hbef k (by omega) hk2) hq (by omega) (by omega)
      have hsub : m - idx = (m - (idx + 1)) + 1 := by omega
      simp [waitPLoop, hb, hq0, hrec, hsub, repPairs]

theorem mem_waitPLoop (q : Nat → Except Err AccountInfo) (address : String) :
    ∀ (r idx : Nat) (balance : String) (ev : Ev),
      ev ∈ (waitPLoop q address idx r balance).2 →
      ev = Ev.getAccountEv address ∨ ev = Ev.sleepEv := by
  intro r
  induction r with
  | zero =>
    intro idx balance ev h
    by_cases hb : balance = "0" <;> simp [waitPLoop, hb] at h
  | succ r ih =>
    intro idx balance ev h
    by_cases hb : balance = "0"
    · cases hq : q idx with
      | error e =>
        simp [waitPLoop, hb, hq] at h
        exact Or.inl h
      | ok a =>
        simp [waitPLoop, hb, hq] at h
        rcases h with h | h | h
        · exact Or.inl h
        · exact Or.inr h
        · exact ih (idx + 1) a.balance ev h
    · simp [waitPLoop, hb] at h

theorem waitForP_firstPoll (T : Nat) (q : Nat → Except Err AccountInfo)
    (address : String) (a : AccountInfo)
    (hq : q 0 = Except.ok a) (h : a.balance ≠ "0") :
    waitForPchainNonZeroBalance T q address =
      (Except.ok (), [Ev.getAccountEv address]) := by
  simp [waitForPchainNonZeroBalance, hq, waitPLoop_nonzero q address 1 T a.balance h]

theorem waitForP_timeout (T : Nat) (q : Nat → Except Err AccountInfo)
    (address : String)
    (h : ∀ k, k ≤ T → ∃ a, q k = Except.ok a ∧ a.balance = "0") :
    waitForPchainNonZeroBalance T q address =
      (Except.error (pchainTimeoutMsg address),
        Ev.getAccountEv address ::
          repPairs (Ev.getAccountEv address) Ev.sleepEv T) := by
  obtain ⟨a, hq, ha⟩ := h 0 (Nat.zero_le T)
  have hrec := waitPLoop_timeout q address T 1 a.balance ha
    (fun k hk1 hk2 => h k (by omega))
  simp [waitForPchainNonZeroBalance, hq, hrec]

theorem waitForP_error (T : Nat) (q : Nat → Except Err AccountInfo)
    (address : String) (m : Nat) (e : Err) (hm : m ≤ T)
    (hbef : ∀ k, k < m → ∃ a, q k = Except.ok a ∧ a.balance = "0")
    (he : q m = Except.error e) :
    (waitForPchainNonZeroBalance T q address).1 =
      Except.error (propagate
        (if m = 0 then "Could not get PChain account information"
         else "Failed to get account information.") e) ∧
    countEv (Ev.getAccountEv address) (waitForPchainNonZeroBalance T q address).2 =
      m + 1 := by
  cases m with
  | zero =>
    simp [waitForPchainNonZeroBalance, he, countEv]
  | succ m =>
    obtain ⟨a, hq0, ha⟩ := hbef 0 (Nat.succ_pos m)
    have hrec := waitPLoop_error q address e (m + 1) T 1 a.balance ha
      (fun k hk1 hk2 => hbef k hk2) he (by omega) (by omega)
    simp [waitForPchainNonZeroBalance, hq0, hrec, countEv,
      countEv_append, countEv_repPairs]
    omega

/-- C5: for each wait primitive (waitForXchainTransactionAcceptance,
waitForValidatorAddition, waitForPchainNonZeroBalance): if its predicate
already holds on the first query it returns success immediately, with a
trace of exactly one query and no sleep; and if the predicate never becomes
true and no query errors occur, it returns the named timeout error
identifying the waited-on resource (transaction id, node id, address) after
making exactly T + 1 queries, T being the acceptance-timeout budget in
seconds — it neither returns success with stale state nor polls forever. -/
theorem wait_primitives_firstPoll_and_timeout
    (T : Nat) (qX : Nat → Except Err String) (txnId : String)
    (qV : Nat → Except Err (List Validator)) (nodeId : String)
    (qP : Nat → Except Err AccountInfo) (address : String) :
    (qX 0 = Except.ok TRANSACTION_ACCEPTED_STATUS →
      waitForXchainTransactionAcceptance T qX txnId =
        (Except.ok (), [Ev.getTxStatusEv txnId])) ∧
    ((∀ k, k ≤ T → ∃ s, qX k = Except.ok s ∧ s ≠ TRANSACTION_ACCEPTED_STATUS) →
      (waitForXchainTransactionAcceptance T qX txnId).1 =
        Except.error (xchainTimeoutMsg txnId) ∧
      countEv (Ev.getTxStatusEv txnId)
        (waitForXchainTransactionAcceptance T qX txnId).2 = T + 1) ∧
    (∀ vs, qV 0 = Except.ok vs → checkValidatorInValidators nodeId vs = true →
      waitForValidatorAddition T qV nodeId =
        (Except.ok (), [Ev.getCurrentValidatorsEv])) ∧
    ((∀ k, k ≤ T → ∃ l, qV k = Except.ok l ∧
        checkValidatorInValidators nodeId l = false) →
      (waitForValidatorAddition T qV nodeId).1 =
        Except.error (validatorTimeoutMsg nodeId) ∧
      countEv Ev.getCurrentValidatorsEv
        (waitForValidatorAddition T qV nodeId).2 = T + 1) ∧
    (∀ a, qP 0 = Except.ok a → a.balance ≠ "0" →
      waitForPchainNonZeroBalance T qP address =
        (Except.ok (), [Ev.getAccountEv address])) ∧
    ((∀ k, k ≤ T → ∃ a, qP k = Except.ok a ∧ a.balance = "0") →
      (waitForPchainNonZeroBalance T qP address).1 =
        Except.error (pchainTimeoutMsg address) ∧
      countEv (Ev.getAccountEv address)
        (waitForPchainNonZeroBalance T qP address).2 = T + 1) := by
  refine ⟨fun h => waitForX_firstPoll T qX txnId h, fun h => ?_,
    fun vs hq h => waitForV_firstPoll T qV nodeId vs hq h, fun h => ?_,
    fun a hq h => waitForP_firstPoll T qP address a hq h, fun h => ?_⟩
  · rw [waitForX_timeout T qX txnId h]
    simp [countEv, countEv_repPairs]
    omega
  · rw [waitForV_timeout T qV nodeId h]
    simp [countEv, countEv_repPairs]
    omega
  · rw [waitForP_timeout T qP address h]
    simp [countEv, countEv_repPairs]
    omega

/-- Witness for C5: a status oracle that is already accepted on the first
poll returns immediately with a single query, and a balance oracle that is
always "0" yields the named timeout error. -/
theorem wait_primitives_firstPoll_and_timeout_witness :
    waitForXchainTransactionAcceptance 2 (fun _ => Except.ok "Accepted") "tx" =
      (Except.ok (), [Ev.getTxStatusEv "tx"]) ∧
    (waitForPchainNonZeroBalance 2
      (fun _ => Except.ok { address := "a", nonce := "0", balance := "0" }) "a").1 =
      Except.error (pchainTimeoutMsg "a") := by
  constructor
  · exact (wait_primitives_firstPoll_and_timeout 2 (fun _ => Except.ok "Accepted") "tx"
      (fun _ => Except.ok []) "n"
      (fun _ => Except.ok { address := "a", nonce := "0", balance := "0" }) "a").1 rfl
  · exact ((wait_primitives_firstPoll_and_timeout 2 (fun _ => Except.ok "Accepted") "tx"
      (fun _ => Except.ok []) "n"
      (fun _ => Except.ok { address := "a", nonce := "0", balance := "0" }) "a").2.2.2.2.2
      (fun k _ => ⟨{ address := "a", nonce := "0", balance := "0" }, rfl, rfl⟩)).1

/-- C6: for each wait primitive, when the underlying query (GetTxStatus,
GetCurrentValidators, GetAccount) first errors at call index m within the
budget, the primitive returns that error wrapped with its context message
and has made exactly m + 1 queries — the failure is propagated immediately
and no further polls are issued. -/
theorem wait_primitives_error_propagation
    (T : Nat) (qX : Nat → Except Err String) (txnId : String)
    (qV : Nat → Except Err (List Validator)) (nodeId : String)
    (qP : Nat → Except Err AccountInfo) (address : String) :
    (∀ m e, m ≤ T →
      (∀ k, k < m → ∃ s, qX k = Except.ok s ∧ s ≠ TRANSACTION_ACCEPTED_STATUS) →
      qX m = Except.error e →
      (waitForXchainTransactionAcceptance T qX txnId).1 =
        Except.error (propagate "Failed to get status." e) ∧
      countEv (Ev.getTxStatusEv txnId)
        (waitForXchainTransactionAcceptance T qX txnId).2 = m + 1) ∧
    (∀ m e, m ≤ T →
      (∀ k, k < m → ∃ l, qV k = Except.ok l ∧
        checkValidatorInValidators nodeId l = false) →
      qV m = Except.error e →
      (waitForValidatorAddition T qV nodeId).1 =
        Except.error (propagate "Could not get current validators" e) ∧
      countEv Ev.getCurrentValidatorsEv
        (waitForValidatorAddition T qV nodeId).2 = m + 1) ∧
    (∀ m e, m ≤ T →
      (∀ k, k < m → ∃ a, qP k = Except.ok a ∧ a.balance = "0") →
      qP m = Except.error e →
      (waitForPchainNonZeroBalance T qP address).1 =
        Except.error (propagate
          (if m = 0 then "Could not get PChain account information"
           else "Failed to get account information.") e) ∧
      countEv (Ev.getAccountEv address)
        (waitForPchainNonZeroBalance T qP address).2 = m + 1) :=
  ⟨fun m e hm hbef he => waitForX_error T qX txnId m e hm hbef he,
   fun m e hm hbef he => waitForV_error T qV nodeId m e hm hbef he,
   fun m e hm hbef he => waitForP_error T qP address m e hm hbef he⟩

/-- Witness for C6: with a status oracle that answers once and then fails,
the wait returns the wrapped query error after exactly two queries. -/
theorem wait_primitives_error_propagation_witness :
    (waitForXchainTransactionAcceptance 3
      (fun k => if k = 0 then Except.ok "Processing" else Except.error "boom") "tx").1 =
      Except.error (propagate "Failed to get status." "boom") ∧
    countEv (Ev.getTxStatusEv "tx")
      (waitForXchainTransactionAcceptance 3
        (fun k => if k = 0 then Except.ok "Processing" else Except.error "boom") "tx").2 =
      2 := by
  exact (wait_primitives_error_propagation 3
    (fun k => if k = 0 then Except.ok "Processing" else Except.error "boom") "tx"
    (fun _ => Except.ok []) "n"
    (fun _ => Except.ok { address := "a", nonce := "0", balance := "0" }) "a").1
    1 "boom" (by omega)
    (fun k hk => ⟨"Processing", by
      have : k = 0 := by omega
      simp [this], by decide⟩)
    rfl

/-- C1 (code bug in the source): with an oracle on which every RPC step
succeeds, the validator never joins the validator set and the PChain
balance stays "0" (acceptance budget 0 seconds, so both waits return their
named timeout errors), AddValidatorOnSubnet nevertheless returns success —
line 178 discards the result of waitForValidatorAddition — and
TransferAvaXChainToPChain returns the P-chain address as success — line 264
discards the result of waitForPchainNonZeroBalance. -/
theorem discarded_wait_results_return_success :
    (waitForValidatorAddition 0 c1ValidatorEnv.getCurrentValidatorsRes "node1").1 =
      Except.error (validatorTimeoutMsg "node1") ∧
    (AddValidatorOnSubnet 0 c1ValidatorEnv "node1" "paddr" 5).1 = Except.ok () ∧
    (waitForPchainNonZeroBalance 0
      (fun k => c1XtoPEnv.getAccountRes (k + 1)) "paddr").1 =
      Except.error (pchainTimeoutMsg "paddr") ∧
    (TransferAvaXChainToPChain 0 c1XtoPEnv 5).1 = Except.ok "paddr" :=
  ⟨rfl, rfl, rfl, rfl⟩

/-- C2 (code bug in the source): whenever request marshalling succeeds, the
POST of makeRpcRequest is carried by the package-level default HTTP client
(line 88 calls http.Post), whose timeout is the zero value, and never by
the client stored by newGeckoJsonRpcRequester with the configured request
timeout. -/
theorem makeRpcRequest_bypasses_configured_client
    (requester : GeckoJsonRpcRequester) (env : RpcEnv) (endpoint method b : String)
    (h : env.marshalRes = Except.ok b) :
    (makeRpcRequest requester env endpoint method).postedWith = some defaultHttpClient ∧
    defaultHttpClient.timeout = 0 ∧
    (requester.client.timeout ≠ 0 →
      (makeRpcRequest requester env endpoint method).postedWith ≠ some requester.client) := by
  have hpw : (makeRpcRequest requester env endpoint method).postedWith =
      some defaultHttpClient := by
    unfold makeRpcRequest
    rw [h]
    simp only
    split
    · rfl
    · split
      · rfl
      · split
        · rfl
        · split
          · rfl
          · split <;> rfl
  refine ⟨hpw, rfl, fun ht hc => ?_⟩
  rw [hpw] at hc
  have : defaultHttpClient = requester.client := Option.some.inj hc
  exact ht (by rw [← this]; rfl)

/-- Witness for C2: a concrete requester configured with a 30-second request
timeout still POSTs through the zero-timeout default client. -/
theorem makeRpcRequest_bypasses_configured_client_witness :
    (makeRpcRequest c2Requester c2Env "/ext/P" "importAVA").postedWith =
      some defaultHttpClient ∧
    c2Requester.client.timeout = 30 ∧ defaultHttpClient.timeout = 0 :=
  ⟨(makeRpcRequest_bypasses_configured_client c2Requester c2Env
      "/ext/P" "importAVA" "reqbody" rfl).1, rfl, rfl⟩

theorem importRetryLoop_none (imp : Nat → Except Err String) (x : String) :
    ∀ (fuel idx : Nat) (e : Err),
    goStrContains e NO_IMPORT_INPUTS_ERROR_STR = true →
    (∀ k, idx ≤ k → k < idx + fuel →
      ∃ e2, imp k = Except.error e2 ∧ goStrContains e2 NO_IMPORT_INPUTS_ERROR_STR = true) →
    importRetryLoop imp x idx fuel (Except.error e) =
      (none, repPairs (Ev.xchainImportAvaEv x) Ev.sleepEv fuel) := by
  intro fuel
  induction fuel with
  | zero =>
    intro idx e he _
    simp [importRetryLoop, he, repPairs]
  | succ fuel ih =>
    intro idx e he h
    obtain ⟨e2, hq, he2⟩ := h idx (Nat.le_refl idx) (by omega)
    have hrec := ih (idx + 1) e2 he2 (fun k hk1 hk2 => h k (by omega) (by omega))
    simp [importRetryLoop, he, hq, hrec, repPairs]

theorem importRetryLoop_ok (imp : Nat → Except Err String) (x : String)
    (m : Nat) (t : String) :
    ∀ (fuel idx : Nat) (e : Err),
    goStrContains e NO_IMPORT_INPUTS_ERROR_STR = true →
    (∀ k, idx ≤ k → k < m →
      ∃ e2, imp k = Except.error e2 ∧ goStrContains e2 NO_IMPORT_INPUTS_ERROR_STR = true) →
    imp m = Except.ok t → idx ≤ m → m < idx + fuel →
    importRetryLoop imp x idx fuel (Except.error e) =
      (some (Except.ok t), repPairs (Ev.xchainImportAvaEv x) Ev.sleepEv (m - idx + 1)) := by
  intro fuel
  induction fuel with
  | zero =>
    intro idx e _ _ _ _ hr
    omega
  | succ fuel ih =>
    intro idx e he hbef hok hle hr
    by_cases hidx : idx = m
    · subst hidx
      simp [importRetryLoop, he, hok, repPairs]
    · obtain ⟨e2, hq, he2⟩ := hbef idx (Nat.le_refl idx) (by omega)
      have hrec := ih (idx + 1) e2 he2
        (fun k hk1 hk2 => hbef k (by omega) hk2) hok (by omega) (by omega)
      have hsub : m - idx = m - (idx + 1) + 1 := by omega
      simp [importRetryLoop, he, hq, hrec, hsub, repPairs]

theorem importRetryLoop_abandon (imp : Nat → Except Err String) (x : String)
    (m : Nat) (t : Err)
    (hnm : goStrContains t NO_IMPORT_INPUTS_ERROR_STR = false) :
    ∀ (fuel idx : Nat) (e : Err),
    goStrContains e NO_IMPORT_INPUTS_ERROR_STR = true →
    (∀ k, idx ≤ k → k < m →
      ∃ e2, imp k = Except.error e2 ∧ goStrContains e2 NO_IMPORT_INPUTS_ERROR_STR = true) →
    imp m = Except.error t → idx ≤ m → m < idx + fuel →
    importRetryLoop imp x idx fuel (Except.error e) =
      (some (Except.error (propagate ("Failed import AVA to xchainAddress " ++ x) t)),
        repPairs (Ev.xchainImportAvaEv x) Ev.sleepEv (m - idx + 1)) := by
  intro fuel
  induction fuel with
  | zero =>
    intro idx e _ _ _ _ hr
    omega
  | succ fuel ih =>
    intro idx e he hbef herr hle hr
    by_cases hidx : idx = m
    · subst hidx
      cases fuel with
      | zero => simp [importRetryLoop, he, herr, hnm, repPairs]
      | succ fuel => simp [importRetryLoop, he, herr, hnm, repPairs]
    · obtain ⟨e2, hq, he2⟩ := hbef idx (Nat.le_refl idx) (by omega)
      have hrec := ih (idx + 1) e2 he2
        (fun k hk1 hk2 => hbef k (by omega) hk2) herr (by omega) (by omega)
      have hsub : m - idx = m - (idx + 1) + 1 := by omega
      simp [importRetryLoop, he, hq, hrec, hsub, repPairs]

theorem mem_importRetryLoop (imp : Nat → Except Err String) (x : String) :
    ∀ (fuel idx : Nat) (cur : Except Err String) (ev : Ev),
      ev ∈ (importRetryLoop imp x idx fuel cur).2 →
      ev = Ev.xchainImportAvaEv x ∨ ev = Ev.sleepEv := by
  intro fuel
  induction fuel with
  | zero =>
    intro idx cur ev h
    cases cur with
    | ok t => simp [importRetryLoop] at h
    | error e =>
      by_cases he : goStrContains e NO_IMPORT_INPUTS_ERROR_STR <;>
        simp [importRetryLoop, he] at h
  | succ fuel ih =>
    intro idx cur ev h
    cases cur with
    | ok t => simp [importRetryLoop] at h
    | error e =>
      by_cases he : goStrContains e NO_IMPORT_INPUTS_ERROR_STR
      · simp [importRetryLoop, he] at h
        rcases h with h | h | h
        · exact Or.inl h
        · exact Or.inr h
        · exact ih (idx + 1) (imp idx) ev h
      · simp [importRetryLoop, he] at h

theorem importAvaWithRetry_none (imp : Nat → Except Err String) (x : String)
    (fuel : Nat)
    (h : ∀ k, k ≤ fuel →
      ∃ e, imp k = Except.error e ∧ goStrContains e NO_IMPORT_INPUTS_ERROR_STR = true) :
    importAvaWithRetry imp x fuel =
      (none, Ev.xchainImportAvaEv x :: repPairs (Ev.xchainImportAvaEv x) Ev.sleepEv fuel) := by
  obtain ⟨e, hq, he⟩ := h 0 (Nat.zero_le fuel)
  have hrec := importRetryLoop_none imp x fuel 1 e he
    (fun k hk1 hk2 => h k (by omega))
  simp [importAvaWithRetry, hq, hrec]

theorem importAvaWithRetry_ok (imp : Nat → Except Err String) (x : String)
    (fuel j : Nat) (t : String)
    (hbef : ∀ k, k < j →
      ∃ e, imp k = Except.error e ∧ goStrContains e NO_IMPORT_INPUTS_ERROR_STR = true)
    (hok : imp j = Except.ok t) (hj : j ≤ fuel) :
    importAvaWithRetry imp x fuel =
      (some (Except.ok t),
        Ev.xchainImportAvaEv x :: repPairs (Ev.xchainImportAvaEv x) Ev.sleepEv j) := by
  cases j with
  | zero => simp [importAvaWithRetry, hok, importRetryLoop, repPairs]
  | succ j =>
    obtain ⟨e, hq, he⟩ := hbef 0 (Nat.succ_pos j)
    have hrec := importRetryLoop_ok imp x (j + 1) t fuel 1 e he
      (fun k hk1 hk2 => hbef k hk2) hok (by omega) (by omega)
    have hsub : j + 1 - 1 + 1 = j + 1 := by omega
    rw [hsub] at hrec
    simp [importAvaWithRetry, hq, hrec]

theorem importAvaWithRetry_abandon (imp : Nat → Except Err String) (x : String)
    (fuel j : Nat) (t : Err)
    (hbef : ∀ k, k < j →
      ∃ e, imp k = Except.error e ∧ goStrContains e NO_IMPORT_INPUTS_ERROR_STR = true)
    (herr : imp j = Except.error t)
    (hnm : goStrContains t NO_IMPORT_INPUTS_ERROR_STR = false) (hj : j ≤ fuel) :
    importAvaWithRetry imp x fuel =
      (some (Except.error (propagate ("Failed import AVA to xchainAddress " ++ x) t)),
        Ev.xchainImportAvaEv x :: repPairs (Ev.xchainImportAvaEv x) Ev.sleepEv j) := by
  cases j with
  | zero =>
    cases fuel with
    | zero => simp [importAvaWithRetry, herr, importRetryLoop, hnm, repPairs]
    | succ fuel => simp [importAvaWithRetry, herr, importRetryLoop, hnm, repPairs]
  | succ j =>
    obtain ⟨e, hq, he⟩ := hbef 0 (Nat.succ_pos j)
    have hrec := importRetryLoop_abandon imp x (j + 1) t hnm fuel 1 e he
      (fun k hk1 hk2 => hbef k hk2) herr (by omega) (by omega)
    have hsub : j + 1 - 1 + 1 = j + 1 := by omega
    rw [hsub] at hrec
    simp [importAvaWithRetry, hq, hrec]

theorem getCurrentPayerNonce_ok (acctRes : Except Err AccountInfo) (addr : String)
    (info : AccountInfo) (n : Int)
    (h1 : acctRes = Except.ok info) (h2 : goAtoi info.nonce = Except.ok n) :
    getCurrentPayerNonce acctRes addr = (Except.ok n, [Ev.getAccountEv addr]) := by
  simp [getCurrentPayerNonce, h1, h2]

/-- C3 counterexample: a concrete run of TransferAvaPChainToXChain in which
the initial ImportAVA call fails with the no-import-inputs message and the
retry succeeds.  The trace shows the retry (the second xchainImportAvaEv,
position 5) is issued immediately after the failed call (position 4), with
no sleep anywhere among the first six events; the one-second sleep comes
after the retry, contradicting the claim that each retry happens after a
fixed one-second sleep. -/
theorem retry_sleeps_after_not_before :
    (TransferAvaPChainToXChain 1 c3PtoXEnv "paddr" "X-xaddr" 7 5).1 =
      some (Except.ok "X-xaddr") ∧
    (TransferAvaPChainToXChain 1 c3PtoXEnv "paddr" "X-xaddr" 7 5).2 =
      [Ev.getAccountEv "paddr", Ev.pchainExportAvaEv 7 "xaddr" 1,
        Ev.signEv "unsignedExp" "paddr", Ev.issueTxEv "signedExp",
        Ev.xchainImportAvaEv "X-xaddr", Ev.xchainImportAvaEv "X-xaddr", Ev.sleepEv,
        Ev.getTxStatusEv "importTx"] ∧
    Ev.sleepEv ∉
      ((TransferAvaPChainToXChain 1 c3PtoXEnv "paddr" "X-xaddr" 7 5).2.take 6) :=
  ⟨rfl, rfl, by decide⟩

/-- C3 amended: when an ImportAVA call of TransferAvaPChainToXChain fails
with an error containing NO_IMPORT_INPUTS_ERROR_STR, the call is retried
immediately and the fixed one-second sleep follows each retry; matching
failures are retried with no ceiling (every unit of fuel is consumed, one
call per unit plus the initial call); the transfer is abandoned with an
error exactly when a call — the initial call or any retry — fails with an
error not containing the substring; and once a call succeeds the function
proceeds to the acceptance wait on the transaction id it returned. -/
theorem TransferAvaPChainToXChain_retry_behavior
    (T : Nat) (env : PtoXEnv) (p x : String) (amount : Int) (fuel j : Nat) :
    ((∀ k, k ≤ fuel → ∃ e, env.xchainImportAvaRes k = Except.error e ∧
        goStrContains e NO_IMPORT_INPUTS_ERROR_STR = true) →
      (importAvaWithRetry env.xchainImportAvaRes x fuel).1 = none ∧
      countEv (Ev.xchainImportAvaEv x)
        (importAvaWithRetry env.xchainImportAvaRes x fuel).2 = fuel + 1) ∧
    (∀ t : Err,
      (∀ k, k < j → ∃ e, env.xchainImportAvaRes k = Except.error e ∧
        goStrContains e NO_IMPORT_INPUTS_ERROR_STR = true) →
      env.xchainImportAvaRes j = Except.error t →
      goStrContains t NO_IMPORT_INPUTS_ERROR_STR = false → j ≤ fuel →
      importAvaWithRetry env.xchainImportAvaRes x fuel =
        (some (Except.error (propagate ("Failed import AVA to xchainAddress " ++ x) t)),
          Ev.xchainImportAvaEv x ::
            repPairs (Ev.xchainImportAvaEv x) Ev.sleepEv j)) ∧
    (∀ t : String,
      (∀ k, k < j → ∃ e, env.xchainImportAvaRes k = Except.error e ∧
        goStrContains e NO_IMPORT_INPUTS_ERROR_STR = true) →
      env.xchainImportAvaRes j = Except.ok t → j ≤ fuel →
      importAvaWithRetry env.xchainImportAvaRes x fuel =
        (some (Except.ok t),
          Ev.xchainImportAvaEv x ::
            repPairs (Ev.xchainImportAvaEv x) Ev.sleepEv j)) ∧
    (∀ (info : AccountInfo) (n : Int) (u sg i t : String),
      env.getAccountRes = Except.ok info → goAtoi info.nonce = Except.ok n →
      env.pchainExportAvaRes = Except.ok u → env.signRes = Except.ok sg →
      env.issueTxRes = Except.ok i →
      (∀ k, k < j → ∃ e, env.xchainImportAvaRes k = Except.error e ∧
        goStrContains e NO_IMPORT_INPUTS_ERROR_STR = true) →
      env.xchainImportAvaRes j = Except.ok t → j ≤ fuel →
      ((waitForXchainTransactionAcceptance T env.getTxStatusRes t).1 = Except.ok () →
        (TransferAvaPChainToXChain T env p x amount fuel).1 = some (Except.ok x)) ∧
      (∀ we : Err,
        (waitForXchainTransactionAcceptance T env.getTxStatusRes t).1 = Except.error we →
        (TransferAvaPChainToXChain T env p x amount fuel).1 =
          some (Except.error
            (propagate "Failed to wait for acceptance of transaction on XChain." we)))) := by
  refine ⟨fun h => ?_, fun t hbef herr hnm hj => ?_, fun t hbef hok hj => ?_,
    fun info n u sg i t hacct hnonce hexp hsg hi hbef hok hj => ?_⟩
  · rw [importAvaWithRetry_none env.xchainImportAvaRes x fuel h]
    simp [countEv, countEv_repPairs]
    omega
  · exact importAvaWithRetry_abandon env.xchainImportAvaRes x fuel j t hbef herr hnm hj
  · exact importAvaWithRetry_ok env.xchainImportAvaRes x fuel j t hbef hok hj
  · have hretry := importAvaWithRetry_ok env.xchainImportAvaRes x fuel j t hbef hok hj
    have hn := getCurrentPayerNonce_ok env.getAccountRes p info n hacct hnonce
    constructor
    · intro hw
      simp [TransferAvaPChainToXChain, hn, hexp, hsg, hi, hretry, hw]
    · intro we hw
      simp [TransferAvaPChainToXChain, hn, hexp, hsg, hi, hretry, hw]

/-- Witness for the amended C3 theorem: the concrete oracle whose initial
ImportAVA fails with the matching message and whose retry succeeds reaches the
acceptance wait and returns the xchain address. -/
theorem TransferAvaPChainToXChain_retry_behavior_witness :
    (TransferAvaPChainToXChain 1 c3PtoXEnv "paddr" "X-xaddr" 7 5).1 =
      some (Except.ok "X-xaddr") ∧
    importAvaWithRetry c3PtoXEnv.xchainImportAvaRes "X-xaddr" 5 =
      (some (Except.ok "importTx"),
        Ev.xchainImportAvaEv "X-xaddr" ::
          repPairs (Ev.xchainImportAvaEv "X-xaddr") Ev.sleepEv 1) := by
  have h := TransferAvaPChainToXChain_retry_behavior 1 c3PtoXEnv "paddr" "X-xaddr" 7 5 1
  constructor
  · exact ((h.2.2.2 { address := "paddr", nonce := "0", balance := "50" } 0
      "unsignedExp" "signedExp" "issuedExp" "importTx"
      rfl rfl rfl rfl rfl
      (fun k hk => ⟨"problem issuing transaction: no import inputs", by
        have hk0 : k = 0 := by omega
        simp [hk0, c3PtoXEnv, c3ImpRes], by decide⟩)
      rfl (by omega)).1) rfl
  · exact h.2.2.1 "importTx"
      (fun k hk => ⟨"problem issuing transaction: no import inputs", by
        have hk0 : k = 0 := by omega
        simp [hk0, c3PtoXEnv, c3ImpRes], by decide⟩)
      rfl (by omega)

theorem mem_importAvaWithRetry (imp : Nat → Except Err String) (x : String)
    (fuel : Nat) (ev : Ev) (h : ev ∈ (importAvaWithRetry imp x fuel).2) :
    ev = Ev.xchainImportAvaEv x ∨ ev = Ev.sleepEv := by
  simp [importAvaWithRetry] at h
  rcases h with h | h
  · exact Or.inl h
  · exact mem_importRetryLoop imp x fuel 1 (imp 0) ev h

theorem TransferAvaPChainToXChain_shape (T : Nat) (env : PtoXEnv) (p x : String)
    (amount : Int) (fuel : Nat) :
    (∀ ev ∈ (TransferAvaPChainToXChain T env p x amount fuel).2,
      ptoxEventSpec p x amount ev) ∧
    (∀ a, (TransferAvaPChainToXChain T env p x amount fuel).1 =
      some (Except.ok a) → a = x) := by
  cases hga : env.getAccountRes with
  | error e =>
    refine ⟨fun ev h => ?_, fun a ha => ?_⟩
    · simp [TransferAvaPChainToXChain, getCurrentPayerNonce, hga] at h
      simp [h, ptoxEventSpec]
    · simp [TransferAvaPChainToXChain, getCurrentPayerNonce, hga] at ha
  | ok info =>
    cases hat : goAtoi info.nonce with
    | error e2 =>
      refine ⟨fun ev h => ?_, fun a ha => ?_⟩
      · simp [TransferAvaPChainToXChain, getCurrentPayerNonce, hga, hat] at h
        simp [h, ptoxEventSpec]
      · simp [TransferAvaPChainToXChain, getCurrentPayerNonce, hga, hat] at ha
    | ok n =>
      cases hexp : env.pchainExportAvaRes with
      | error e =>
        refine ⟨fun ev h => ?_, fun a ha => ?_⟩
        · simp [TransferAvaPChainToXChain, getCurrentPayerNonce, hga, hat, hexp] at h
          rcases h with h | h <;> simp [h, ptoxEventSpec]
        · simp [TransferAvaPChainToXChain, getCurrentPayerNonce, hga, hat, hexp] at ha
      | ok u =>
        cases hsg : env.signRes with
        | error e =>
          refine ⟨fun ev h => ?_, fun a ha => ?_⟩
          · simp [TransferAvaPChainToXChain, getCurrentPayerNonce,
              hga, hat, hexp, hsg] at h
            rcases h with h | h | h <;> simp [h, ptoxEventSpec]
          · simp [TransferAvaPChainToXChain, getCurrentPayerNonce,
              hga, hat, hexp, hsg] at ha
        | ok sg =>
          cases hiss : env.issueTxRes with
          | error e =>
            refine ⟨fun ev h => ?_, fun a ha => ?_⟩
            · simp [TransferAvaPChainToXChain, getCurrentPayerNonce,
                hga, hat, hexp, hsg, hiss] at h
              rcases h with h | h | h | h <;> simp [h, ptoxEventSpec]
            · simp [TransferAvaPChainToXChain, getCurrentPayerNonce,
                hga, hat, hexp, hsg, hiss] at ha
          | ok i =>
            cases hr1 : (importAvaWithRetry env.xchainImportAvaRes x fuel).1 with
            | none =>
              refine ⟨fun ev h => ?_, fun a ha => ?_⟩
              · simp [TransferAvaPChainToXChain, getCurrentPayerNonce,
                  hga, hat, hexp, hsg, hiss, hr1] at h
                rcases h with h | h | h | h | h
                · simp [h, ptoxEventSpec]
                · simp [h, ptoxEventSpec]
                · simp [h, ptoxEventSpec]
                · simp [h, ptoxEventSpec]
                · rcases mem_importAvaWithRetry env.xchainImportAvaRes x fuel ev h
                    with h2 | h2 <;> simp [h2, ptoxEventSpec]
              · simp [TransferAvaPChainToXChain, getCurrentPayerNonce,
                  hga, hat, hexp, hsg, hiss, hr1] at ha
            | some v =>
              cases v with
              | error er =>
                refine ⟨fun ev h => ?_, fun a ha => ?_⟩
                · simp [TransferAvaPChainToXChain, getCurrentPayerNonce,
                    hga, hat, hexp, hsg, hiss, hr1] at h
                  rcases h with h | h | h | h | h
                  · simp [h, ptoxEventSpec]
                  · simp [h, ptoxEventSpec]
                  · simp [h, ptoxEventSpec]
                  · simp [h, ptoxEventSpec]
                  · rcases mem_importAvaWithRetry env.xchainImportAvaRes x fuel ev h
                      with h2 | h2 <;> simp [h2, ptoxEventSpec]
                · simp [TransferAvaPChainToXChain, getCurrentPayerNonce,
                    hga, hat, hexp, hsg, hiss, hr1] at ha
              | ok t =>
                cases hw : (waitForXchainTransactionAcceptance T env.getTxStatusRes t).1 with
                | error we =>
                  refine ⟨fun ev h => ?_, fun a ha => ?_⟩
                  · simp [TransferAvaPChainToXChain, getCurrentPayerNonce,
                      hga, hat, hexp, hsg, hiss, hr1, hw] at h
                    rcases h with h | h | h | h | h | h
                    · simp [h, ptoxEventSpec]
                    · simp [h, ptoxEventSpec]
                    · simp [h, ptoxEventSpec]
                    · simp [h, ptoxEventSpec]
                    · rcases mem_importAvaWithRetry env.xchainImportAvaRes x fuel ev h
                        with h2 | h2 <;> simp [h2, ptoxEventSpec]
                    · rcases mem_waitX T env.getTxStatusRes t ev h
                        with h2 | h2 <;> simp [h2, ptoxEventSpec]
                  · simp [TransferAvaPChainToXChain, getCurrentPayerNonce,
                      hga, hat, hexp, hsg, hiss, hr1, hw] at ha
                | ok u2 =>
                  refine ⟨fun ev h => ?_, fun a ha => ?_⟩
                  · simp [TransferAvaPChainToXChain, getCurrentPayerNonce,
                      hga, hat, hexp, hsg, hiss, hr1, hw] at h
                    rcases h with h | h | h | h | h | h
                    · simp [h, ptoxEventSpec]
                    · simp [h, ptoxEventSpec]
                    · simp [h, ptoxEventSpec]
                    · simp [h, ptoxEventSpec]
                    · rcases mem_importAvaWithRetry env.xchainImportAvaRes x fuel ev h
                        with h2 | h2 <;> simp [h2, ptoxEventSpec]
                    · rcases mem_waitX T env.getTxStatusRes t ev h
                        with h2 | h2 <;> simp [h2, ptoxEventSpec]
                  · simp [TransferAvaPChainToXChain, getCurrentPayerNonce,
                      hga, hat, hexp, hsg, hiss, hr1, hw] at ha
                    exact ha.symm

/-- C10: in TransferAvaPChainToXChain(p, x, amount), every PChain ExportAVA
call targets x with any leading "X-" marker removed (and carries the full
amount), every XChain ImportAVA call — the initial one and all retries —
targets x exactly as given, and a successful run returns x unchanged. -/
theorem TransferAvaPChainToXChain_addresses
    (T : Nat) (env : PtoXEnv) (p x : String) (amount : Int) (fuel : Nat) :
    (∀ amt dest nonce, Ev.pchainExportAvaEv amt dest nonce ∈
        (TransferAvaPChainToXChain T env p x amount fuel).2 →
      dest = goTrimHead x XCHAIN_ADDRESS_START ∧ amt = amount) ∧
    (∀ dest, Ev.xchainImportAvaEv dest ∈
        (TransferAvaPChainToXChain T env p x amount fuel).2 → dest = x) ∧
    (∀ a, (TransferAvaPChainToXChain T env p x amount fuel).1 =
      some (Except.ok a) → a = x) := by
  obtain ⟨hmem, hres⟩ := TransferAvaPChainToXChain_shape T env p x amount fuel
  refine ⟨fun amt dest nonce h => ?_, fun dest h => ?_, hres⟩
  · have h2 := hmem _ h
    simp [ptoxEventSpec] at h2
    exact ⟨h2.2, h2.1⟩
  · have h2 := hmem _ h
    simpa [ptoxEventSpec] using h2

/-- Witness for C10: on a fully successful concrete run with nonce "4", the
export event targets the stripped address "dest" with the nonce 5, and the
run returns the unstripped input address. -/
theorem TransferAvaPChainToXChain_addresses_witness :
    Ev.pchainExportAvaEv 3 "dest" 5 ∈
      (TransferAvaPChainToXChain 1 c10Env "P-q" "X-dest" 3 2).2 ∧
    "dest" = goTrimHead "X-dest" XCHAIN_ADDRESS_START ∧ (3 : Int) = 3 ∧
    (TransferAvaPChainToXChain 1 c10Env "P-q" "X-dest" 3 2).1 =
      some (Except.ok "X-dest") := by
  have hmem : Ev.pchainExportAvaEv 3 "dest" 5 ∈
      (TransferAvaPChainToXChain 1 c10Env "P-q" "X-dest" 3 2).2 := by decide
  have h2 := (TransferAvaPChainToXChain_addresses 1 c10Env "P-q" "X-dest" 3 2).1
    3 "dest" 5 hmem
  exact ⟨hmem, h2.1, h2.2, rfl⟩

/-- C4: every state-mutating P-chain operation issued by the Runner —
AddDefaultSubnetValidator in AddValidatorOnSubnet, AddDefaultSubnetDelegator
in AddDelegatorOnSubnet, the P-chain ImportAVA in TransferAvaXChainToPChain
and the P-chain ExportAVA in TransferAvaPChainToXChain — carries payer
nonce currentPayerNonce + 1 where currentPayerNonce is parsed from a
GetAccount query issued by getCurrentPayerNonce immediately before the
operation and after all preceding steps of that workflow (for the
X-to-P transfer, after the acceptance wait of the export), never cached. -/
theorem payer_nonce_freshly_fetched
    (T : Nat) (vEnv : ValidatorEnv) (dEnv : DelegatorEnv) (xEnv : XtoPEnv)
    (pEnv : PtoXEnv) (nodeId addr p x : String) (stake amount : Int) (fuel : Nat) :
    (∀ info n, vEnv.getAccountRes = Except.ok info → goAtoi info.nonce = Except.ok n →
      ∃ rest, (AddValidatorOnSubnet T vEnv nodeId addr stake).2 =
        Ev.getAccountEv addr :: Ev.addValidatorEv nodeId stake (n + 1) addr :: rest) ∧
    (∀ info n, dEnv.getAccountRes = Except.ok info → goAtoi info.nonce = Except.ok n →
      ∃ rest, (AddDelegatorOnSubnet dEnv nodeId addr stake).2 =
        Ev.getAccountEv addr :: Ev.addDelegatorEv nodeId stake (n + 1) addr :: rest) ∧
    (∀ pa tx info n, xEnv.createAccountRes = Except.ok pa →
      xEnv.xchainExportAvaRes = Except.ok tx →
      (waitForXchainTransactionAcceptance T xEnv.getTxStatusRes tx).1 = Except.ok () →
      xEnv.getAccountRes 0 = Except.ok info → goAtoi info.nonce = Except.ok n →
      ∃ rest, (TransferAvaXChainToPChain T xEnv amount).2 =
        [Ev.createAccountEv, Ev.xchainExportAvaEv pa amount] ++
          (waitForXchainTransactionAcceptance T xEnv.getTxStatusRes tx).2 ++
          Ev.getAccountEv pa :: Ev.pchainImportAvaEv pa (n + 1) :: rest) ∧
    (∀ info n, pEnv.getAccountRes = Except.ok info → goAtoi info.nonce = Except.ok n →
      ∃ rest, (TransferAvaPChainToXChain T pEnv p x amount fuel).2 =
        Ev.getAccountEv p ::
          Ev.pchainExportAvaEv amount (goTrimHead x XCHAIN_ADDRESS_START) (n + 1) ::
            rest) := by
  refine ⟨fun info n h1 h2 => ?_, fun info n h1 h2 => ?_,
    fun pa tx info n hc hx hw h1 h2 => ?_, fun info n h1 h2 => ?_⟩
  · have hn := getCurrentPayerNonce_ok vEnv.getAccountRes addr info n h1 h2
    cases h3 : vEnv.addValidatorRes with
    | error e => exact ⟨[], by simp [AddValidatorOnSubnet, hn, h3]⟩
    | ok u =>
      cases h4 : vEnv.signRes with
      | error e =>
        exact ⟨[Ev.signEv u addr], by simp [AddValidatorOnSubnet, hn, h3, h4]⟩
      | ok sg =>
        cases h5 : vEnv.issueTxRes with
        | error e =>
          exact ⟨[Ev.signEv u addr, Ev.issueTxEv sg],
            by simp [AddValidatorOnSubnet, hn, h3, h4, h5]⟩
        | ok i =>
          exact ⟨[Ev.signEv u addr, Ev.issueTxEv sg, Ev.busyWaitEv] ++
            (waitForValidatorAddition T vEnv.getCurrentValidatorsRes nodeId).2,
            by simp [AddValidatorOnSubnet, hn, h3, h4, h5]⟩
  · have hn := getCurrentPayerNonce_ok dEnv.getAccountRes addr info n h1 h2
    cases h3 : dEnv.addDelegatorRes with
    | error e => exact ⟨[], by simp [AddDelegatorOnSubnet, hn, h3]⟩
    | ok u =>
      cases h4 : dEnv.signRes with
      | error e =>
        exact ⟨[Ev.signEv u addr], by simp [AddDelegatorOnSubnet, hn, h3, h4]⟩
      | ok sg =>
        cases h5 : dEnv.issueTxRes with
        | error e =>
          exact ⟨[Ev.signEv u addr, Ev.issueTxEv sg],
            by simp [AddDelegatorOnSubnet, hn, h3, h4, h5]⟩
        | ok i =>
          exact ⟨[Ev.signEv u addr, Ev.issueTxEv sg, Ev.busyWaitEv],
            by simp [AddDelegatorOnSubnet, hn, h3, h4, h5]⟩
  · have hn := getCurrentPayerNonce_ok (xEnv.getAccountRes 0) pa info n h1 h2
    cases h3 : xEnv.pchainImportAvaRes with
    | error e =>
      exact ⟨[], by simp [TransferAvaXChainToPChain, hc, hx, hw, hn, h3]⟩
    | ok t2 =>
      cases h4 : xEnv.issueTxRes with
      | error e =>
        exact ⟨[Ev.issueTxEv t2],
          by simp [TransferAvaXChainToPChain, hc, hx, hw, hn, h3, h4]⟩
      | ok t3 =>
        exact ⟨Ev.issueTxEv t2 ::
          (waitForPchainNonZeroBalance T (fun k => xEnv.getAccountRes (k + 1)) pa).2,
          by simp [TransferAvaXChainToPChain, hc, hx, hw, hn, h3, h4]⟩
  · have hn := getCurrentPayerNonce_ok pEnv.getAccountRes p info n h1 h2
    cases h3 : pEnv.pchainExportAvaRes with
    | error e => exact ⟨[], by simp [TransferAvaPChainToXChain, hn, h3]⟩
    | ok u =>
      cases h4 : pEnv.signRes with
      | error e =>
        exact ⟨[Ev.signEv u p], by simp [TransferAvaPChainToXChain, hn, h3, h4]⟩
      | ok sg =>
        cases h5 : pEnv.issueTxRes with
        | error e =>
          exact ⟨[Ev.signEv u p, Ev.issueTxEv sg],
            by simp [TransferAvaPChainToXChain, hn, h3, h4, h5]⟩
        | ok i =>
          cases hr1 : (importAvaWithRetry pEnv.xchainImportAvaRes x fuel).1 with
          | none =>
            exact ⟨[Ev.signEv u p, Ev.issueTxEv sg] ++
              (importAvaWithRetry pEnv.xchainImportAvaRes x fuel).2,
              by simp [TransferAvaPChainToXChain, hn, h3, h4, h5, hr1]⟩
          | some v =>
            cases v with
            | error er =>
              exact ⟨[Ev.signEv u p, Ev.issueTxEv sg] ++
                (importAvaWithRetry pEnv.xchainImportAvaRes x fuel).2,
                by simp [TransferAvaPChainToXChain, hn, h3, h4, h5, hr1]⟩
            | ok t =>
              cases hw : (waitForXchainTransactionAcceptance T pEnv.getTxStatusRes t).1 with
              | error we =>
                exact ⟨[Ev.signEv u p, Ev.issueTxEv sg] ++
                  (importAvaWithRetry pEnv.xchainImportAvaRes x fuel).2 ++
                  (waitForXchainTransactionAcceptance T pEnv.getTxStatusRes t).2,
                  by simp [TransferAvaPChainToXChain, hn, h3, h4, h5, hr1, hw]⟩
              | ok u2 =>
                exact ⟨[Ev.signEv u p, Ev.issueTxEv sg] ++
                  (importAvaWithRetry pEnv.xchainImportAvaRes x fuel).2 ++
                  (waitForXchainTransactionAcceptance T pEnv.getTxStatusRes t).2,
                  by simp [TransferAvaPChainToXChain, hn, h3, h4, h5, hr1, hw]⟩

/-- Witness for C4: with the account nonce "7" the add-validator operation
carries payer nonce 8, immediately after the single fresh GetAccount query;
with nonce "2" the X-to-P import carries payer nonce 3 after the acceptance
wait. -/
theorem payer_nonce_freshly_fetched_witness :
    (∃ rest, (AddValidatorOnSubnet 1 c4VEnv "node4" "paddr4" 5).2 =
      Ev.getAccountEv "paddr4" :: Ev.addValidatorEv "node4" 5 8 "paddr4" :: rest) ∧
    (∃ rest, (TransferAvaXChainToPChain 1 c4XEnv 6).2 =
      [Ev.createAccountEv, Ev.xchainExportAvaEv "px4" 6] ++
        (waitForXchainTransactionAcceptance 1 c4XEnv.getTxStatusRes "tx4").2 ++
        Ev.getAccountEv "px4" :: Ev.pchainImportAvaEv "px4" 3 :: rest) := by
  have h := payer_nonce_freshly_fetched 1 c4VEnv
    { getAccountRes := Except.ok { address := "d", nonce := "0", balance := "0" },
      addDelegatorRes := Except.ok "du", signRes := Except.ok "ds",
      issueTxRes := Except.ok "di" }
    c4XEnv c10Env "node4" "paddr4" "pp" "xx" 5 6 2
  constructor
  · exact h.1 { address := "paddr4", nonce := "7", balance := "10" } 7 rfl rfl
  · exact h.2.2.1 "px4" "tx4" { address := "px4", nonce := "2", balance := "6" } 2
      rfl rfl rfl rfl rfl

/-- C9: in CreateAndSeedXChainAccountFromGenesis the two keystore
CreateUser calls are issued but their outcomes never influence the result
or the rest of the run (the source drops the stacktrace.Propagate value at
lines 193-200); every later step — GetNodeId, ImportKey, CreateAddress,
Send, the acceptance wait — aborts the workflow with its wrapped error; and
a successful run returns exactly the freshly created address, only after
the acceptance wait has returned success. -/
theorem CreateAndSeed_keystore_tolerant_and_acceptance_gated
    (T : Nat) (username : String) (env : SeedEnv) (amount : Int) :
    (∀ c1 c2 : Nat → Except Err Bool,
      CreateAndSeedXChainAccountFromGenesis T username
        { env with createUserRes := c1 } amount =
      CreateAndSeedXChainAccountFromGenesis T username
        { env with createUserRes := c2 } amount) ∧
    (∃ rest, (CreateAndSeedXChainAccountFromGenesis T username env amount).2 =
      Ev.createUserEv username :: Ev.createUserEv GENESIS_USERNAME :: rest) ∧
    (∀ e, env.getNodeIdRes = Except.error e →
      (CreateAndSeedXChainAccountFromGenesis T username env amount).1 =
        Except.error (propagate "Could not get node id" e)) ∧
    (∀ nid e, env.getNodeIdRes = Except.ok nid → env.importKeyRes = Except.error e →
      (CreateAndSeedXChainAccountFromGenesis T username env amount).1 =
        Except.error (propagate "Failed to take control of genesis account." e)) ∧
    (∀ nid g e, env.getNodeIdRes = Except.ok nid → env.importKeyRes = Except.ok g →
      env.createAddressRes = Except.error e →
      (CreateAndSeedXChainAccountFromGenesis T username env amount).1 =
        Except.error (propagate "Failed to create address on XChain." e)) ∧
    (∀ nid g a e, env.getNodeIdRes = Except.ok nid → env.importKeyRes = Except.ok g →
      env.createAddressRes = Except.ok a → env.sendRes = Except.error e →
      (CreateAndSeedXChainAccountFromGenesis T username env amount).1 =
        Except.error (propagate ("Failed to send AVA to test account address " ++ a) e)) ∧
    (∀ nid g a tx we, env.getNodeIdRes = Except.ok nid → env.importKeyRes = Except.ok g →
      env.createAddressRes = Except.ok a → env.sendRes = Except.ok tx →
      (waitForXchainTransactionAcceptance T env.getTxStatusRes tx).1 = Except.error we →
      (CreateAndSeedXChainAccountFromGenesis T username env amount).1 =
        Except.error (propagate "Failed to wait for transaction acceptance." we)) ∧
    (∀ a, (CreateAndSeedXChainAccountFromGenesis T username env amount).1 = Except.ok a →
      env.createAddressRes = Except.ok a ∧
      ∃ tx, env.sendRes = Except.ok tx ∧
        (waitForXchainTransactionAcceptance T env.getTxStatusRes tx).1 = Except.ok ()) := by
  refine ⟨fun c1 c2 => rfl, ?_, fun e h1 => ?_, fun nid e h1 h2 => ?_,
    fun nid g e h1 h2 h3 => ?_, fun nid g a e h1 h2 h3 h4 => ?_,
    fun nid g a tx we h1 h2 h3 h4 h5 => ?_, fun a ha => ?_⟩
  · cases h1 : env.getNodeIdRes with
    | error e => exact ⟨[Ev.getNodeIdEv], by simp [CreateAndSeedXChainAccountFromGenesis, h1]⟩
    | ok nid =>
      cases h2 : env.importKeyRes with
      | error e =>
        exact ⟨[Ev.getNodeIdEv, Ev.importKeyEv],
          by simp [CreateAndSeedXChainAccountFromGenesis, h1, h2]⟩
      | ok g =>
        cases h3 : env.createAddressRes with
        | error e =>
          exact ⟨[Ev.getNodeIdEv, Ev.importKeyEv, Ev.createAddressEv username],
            by simp [CreateAndSeedXChainAccountFromGenesis, h1, h2, h3]⟩
        | ok a =>
          cases h4 : env.sendRes with
          | error e =>
            exact ⟨[Ev.getNodeIdEv, Ev.importKeyEv, Ev.createAddressEv username,
              Ev.sendEv amount AVA_ASSET_ID a],
              by simp [CreateAndSeedXChainAccountFromGenesis, h1, h2, h3, h4]⟩
          | ok tx =>
            cases h5 : (waitForXchainTransactionAcceptance T env.getTxStatusRes tx).1 with
            | error we =>
              exact ⟨[Ev.getNodeIdEv, Ev.importKeyEv, Ev.createAddressEv username,
                Ev.sendEv amount AVA_ASSET_ID a] ++
                (waitForXchainTransactionAcceptance T env.getTxStatusRes tx).2,
                by simp [CreateAndSeedXChainAccountFromGenesis, h1, h2, h3, h4, h5]⟩
            | ok u =>
              exact ⟨[Ev.getNodeIdEv, Ev.importKeyEv, Ev.createAddressEv username,
                Ev.sendEv amount AVA_ASSET_ID a] ++
                (waitForXchainTransactionAcceptance T env.getTxStatusRes tx).2,
                by simp [CreateAndSeedXChainAccountFromGenesis, h1, h2, h3, h4, h5]⟩
  · simp [CreateAndSeedXChainAccountFromGenesis, h1]
  · simp [CreateAndSeedXChainAccountFromGenesis, h1, h2]
  · simp [CreateAndSeedXChainAccountFromGenesis, h1, h2, h3]
  · simp [CreateAndSeedXChainAccountFromGenesis, h1, h2, h3, h4]
  · simp [CreateAndSeedXChainAccountFromGenesis, h1, h2, h3, h4, h5]
  · cases h1 : env.getNodeIdRes with
    | error e => simp [CreateAndSeedXChainAccountFromGenesis, h1] at ha
    | ok nid =>
      cases h2 : env.importKeyRes with
      | error e => simp [CreateAndSeedXChainAccountFromGenesis, h1, h2] at ha
      | ok g =>
        cases h3 : env.createAddressRes with
        | error e => simp [CreateAndSeedXChainAccountFromGenesis, h1, h2, h3] at ha
        | ok ta =>
          cases h4 : env.sendRes with
          | error e => simp [CreateAndSeedXChainAccountFromGenesis, h1, h2, h3, h4] at ha
          | ok tx =>
            cases h5 : (waitForXchainTransactionAcceptance T env.getTxStatusRes tx).1 with
            | error we =>
              simp [CreateAndSeedXChainAccountFromGenesis, h1, h2, h3, h4, h5] at ha
            | ok u =>
              simp [CreateAndSeedXChainAccountFromGenesis, h1, h2, h3, h4, h5] at ha
              subst ha
              exact ⟨rfl, tx, rfl, by rw [h5]⟩

/-- Witness for C9: with both CreateUser calls failing ("user already
exists") and all later steps succeeding, the run is indistinguishable from
one where user creation succeeds, and it returns the fresh address with the
funding transaction observed as accepted. -/
theorem CreateAndSeed_keystore_tolerant_witness :
    CreateAndSeedXChainAccountFromGenesis 1 "u9" c9Env 5 =
      CreateAndSeedXChainAccountFromGenesis 1 "u9"
        { c9Env with createUserRes := fun _ => Except.ok true } 5 ∧
    (c9Env.createAddressRes = Except.ok "addr9" ∧
      ∃ tx, c9Env.sendRes = Except.ok tx ∧
        (waitForXchainTransactionAcceptance 1 c9Env.getTxStatusRes tx).1 =
          Except.ok ()) := by
  have h := CreateAndSeed_keystore_tolerant_and_acceptance_gated 1 "u9" c9Env 5
  exact ⟨h.1 c9Env.createUserRes (fun _ => Except.ok true),
    h.2.2.2.2.2.2.2 "addr9" rfl⟩

/-- C7: makeRpcRequest returns the raw response body exactly when request
marshalling succeeds, the POST succeeds, reading the response body
succeeds, the HTTP status is 200, the response envelope deserializes, and
the embedded RPC error code is zero; in every other case it returns an
error. -/
theorem makeRpcRequest_error_conditions
    (requester : GeckoJsonRpcRequester) (env : RpcEnv) (endpoint method : String) :
    (∀ b, (makeRpcRequest requester env endpoint method).result = Except.ok b →
      ∃ reqB resp, env.marshalRes = Except.ok reqB ∧
        env.postRes defaultHttpClient (urlOf requester endpoint) reqB =
          Except.ok resp ∧
        resp.bodyRead = Except.ok b ∧ resp.statusCode = 200 ∧
        ∃ r, env.unmarshalRes b = Except.ok r ∧ r.error.code = 0) ∧
    (∀ reqB resp b r, env.marshalRes = Except.ok reqB →
      env.postRes defaultHttpClient (urlOf requester endpoint) reqB = Except.ok resp →
      resp.bodyRead = Except.ok b → resp.statusCode = 200 →
      env.unmarshalRes b = Except.ok r → r.error.code = 0 →
      (makeRpcRequest requester env endpoint method).result = Except.ok b) := by
  constructor
  · intro b hb
    cases h1 : env.marshalRes with
    | error e => simp [makeRpcRequest, h1] at hb
    | ok reqB =>
      cases h2 : env.postRes defaultHttpClient (urlOf requester endpoint) reqB with
      | error e => simp [makeRpcRequest, h1, h2] at hb
      | ok resp =>
        cases h3 : resp.bodyRead with
        | error e => simp [makeRpcRequest, h1, h2, h3] at hb
        | ok body =>
          by_cases h4 : resp.statusCode = 200
          · cases h5 : env.unmarshalRes body with
            | error e => simp [makeRpcRequest, h1, h2, h3, h4, h5] at hb
            | ok r =>
              by_cases h6 : r.error.code = 0
              · simp [makeRpcRequest, h1, h2, h3, h4, h5, h6] at hb
                subst hb
                exact ⟨reqB, resp, rfl, h2, h3, h4, r, h5, h6⟩
              · simp [makeRpcRequest, h1, h2, h3, h4, h5, h6] at hb
          · simp [makeRpcRequest, h1, h2, h3, h4] at hb
  · intro reqB resp b r h1 h2 h3 h4 h5 h6
    simp [makeRpcRequest, h1, h2, h3, h4, h5, h6]

/-- Witness for C7: the all-success oracle returns the raw body "body7". -/
theorem makeRpcRequest_error_conditions_witness :
    (makeRpcRequest (newGeckoJsonRpcRequester "h" 1 9) c7Env "/e" "m").result =
      Except.ok "body7" :=
  (makeRpcRequest_error_conditions (newGeckoJsonRpcRequester "h" 1 9) c7Env "/e" "m").2
    "req7" { statusCode := 200, bodyRead := Except.ok "body7" } "body7"
    { jsonRpcVersion := "2.0", error := { code := 0, message := "" }, id := 1 }
    rfl rfl rfl rfl rfl rfl

theorem countEv_waitX_zero (T : Nat) (q : Nat → Except Err String) (tx : String)
    (e : Ev) (h1 : ∀ t, e ≠ Ev.getTxStatusEv t) (h2 : e ≠ Ev.sleepEv) :
    countEv e (waitForXchainTransactionAcceptance T q tx).2 = 0 := by
  refine countEv_eq_zero_of e _ (fun x hx => ?_)
  rcases mem_waitX T q tx x hx with h | h
  · exact fun hh => h1 tx (hh ▸ h ▸ rfl)
  · exact fun hh => h2 (hh ▸ h ▸ rfl)

theorem countEv_waitV_zero (T : Nat) (q : Nat → Except Err (List Validator))
    (nodeId : String) (e : Ev)
    (h1 : e ≠ Ev.getCurrentValidatorsEv) (h2 : e ≠ Ev.sleepEv) :
    countEv e (waitForValidatorAddition T q nodeId).2 = 0 := by
  refine countEv_eq_zero_of e _ (fun x hx => ?_)
  have hm : x = Ev.getCurrentValidatorsEv ∨ x = Ev.sleepEv := by
    cases hq : q 0 with
    | error e2 =>
      simp [waitForValidatorAddition, hq] at hx
      exact Or.inl hx
    | ok vs =>
      simp [waitForValidatorAddition, hq] at hx
      rcases hx with hx | hx
      · exact Or.inl hx
      · exact mem_waitVLoop q nodeId T 1 vs x hx
  rcases hm with h | h
  · exact fun hh => h1 (hh ▸ h ▸ rfl)
  · exact fun hh => h2 (hh ▸ h ▸ rfl)

theorem countEv_waitP_zero (T : Nat) (q : Nat → Except Err AccountInfo)
    (address : String) (e : Ev)
    (h1 : ∀ a, e ≠ Ev.getAccountEv a) (h2 : e ≠ Ev.sleepEv) :
    countEv e (waitForPchainNonZeroBalance T q address).2 = 0 := by
  refine countEv_eq_zero_of e _ (fun x hx => ?_)
  have hm : x = Ev.getAccountEv address ∨ x = Ev.sleepEv := by
    cases hq : q 0 with
    | error e2 =>
      simp [waitForPchainNonZeroBalance, hq] at hx
      exact Or.inl hx
    | ok a =>
      simp [waitForPchainNonZeroBalance, hq] at hx
      rcases hx with hx | hx
      · exact Or.inl hx
      · exact mem_waitPLoop q address T 1 a.balance x hx
  rcases hm with h | h
  · exact fun hh => h1 address (hh ▸ h ▸ rfl)
  · exact fun hh => h2 (hh ▸ h ▸ rfl)

theorem seed_counts (T : Nat) (username : String) (env : SeedEnv) (amount : Int) :
    countEv Ev.createAccountEv
      (CreateAndSeedXChainAccountFromGenesis T username env amount).2 = 0 ∧
    countEv Ev.importKeyEv
      (CreateAndSeedXChainAccountFromGenesis T username env amount).2 ≤ 1 ∧
    ((∃ a, (CreateAndSeedXChainAccountFromGenesis T username env amount).1 =
        Except.ok a) →
      countEv Ev.importKeyEv
        (CreateAndSeedXChainAccountFromGenesis T username env amount).2 = 1) := by
  cases h1 : env.getNodeIdRes with
  | error e =>
    refine ⟨?_, ?_, fun ⟨a, ha⟩ => ?_⟩ <;>
      simp [CreateAndSeedXChainAccountFromGenesis, h1, countEv] at *
  | ok nid =>
    cases h2 : env.importKeyRes with
    | error e =>
      refine ⟨?_, ?_, fun ⟨a, ha⟩ => ?_⟩ <;>
        simp [CreateAndSeedXChainAccountFromGenesis, h1, h2, countEv] at *
    | ok g =>
      cases h3 : env.createAddressRes with
      | error e =>
        refine ⟨?_, ?_, fun ⟨a, ha⟩ => ?_⟩ <;>
          simp [CreateAndSeedXChainAccountFromGenesis, h1, h2, h3, countEv] at *
      | ok ta =>
        cases h4 : env.sendRes with
        | error e =>
          refine ⟨?_, ?_, fun ⟨a, ha⟩ => ?_⟩ <;>
            simp [CreateAndSeedXChainAccountFromGenesis, h1, h2, h3, h4, countEv] at *
        | ok tx =>
          have hwa : countEv Ev.createAccountEv
              (waitForXchainTransactionAcceptance T env.getTxStatusRes tx).2 = 0 :=
            countEv_waitX_zero T env.getTxStatusRes tx _ (by intro t; simp) (by simp)
          have hwi : countEv Ev.importKeyEv
              (waitForXchainTransactionAcceptance T env.getTxStatusRes tx).2 = 0 :=
            countEv_waitX_zero T env.getTxStatusRes tx _ (by intro t; simp) (by simp)
          cases h5 : (waitForXchainTransactionAcceptance T env.getTxStatusRes tx).1 with
          | error we =>
            refine ⟨?_, ?_, fun ⟨a, ha⟩ => ?_⟩ <;>
              simp [CreateAndSeedXChainAccountFromGenesis, h1, h2, h3, h4, h5,
                countEv, countEv_append, hwa, hwi] at *
          | ok u =>
            refine ⟨?_, ?_, fun ⟨a, ha⟩ => ?_⟩ <;>
              simp [CreateAndSeedXChainAccountFromGenesis, h1, h2, h3, h4, h5,
                countEv, countEv_append, hwa, hwi] at *

theorem transfer_importKey_zero (T : Nat) (env : XtoPEnv) (amount : Int) :
    countEv Ev.importKeyEv (TransferAvaXChainToPChain T env amount).2 = 0 := by
  cases hc : env.createAccountRes with
  | error e => simp [TransferAvaXChainToPChain, hc, countEv]
  | ok pa =>
    cases hx : env.xchainExportAvaRes with
    | error e => simp [TransferAvaXChainToPChain, hc, hx, countEv]
    | ok tx =>
      have hwi : countEv Ev.importKeyEv
          (waitForXchainTransactionAcceptance T env.getTxStatusRes tx).2 = 0 :=
        countEv_waitX_zero T env.getTxStatusRes tx _ (by intro t; simp) (by simp)
      cases hw : (waitForXchainTransactionAcceptance T env.getTxStatusRes tx).1 with
      | error we =>
        simp [TransferAvaXChainToPChain, hc, hx, hw, countEv, countEv_append, hwi]
      | ok u =>
        cases hga : env.getAccountRes 0 with
        | error e =>
          simp [TransferAvaXChainToPChain, getCurrentPayerNonce, hc, hx, hw, hga,
            countEv, countEv_append, hwi]
        | ok info =>
          cases hat : goAtoi info.nonce with
          | error e =>
            simp [TransferAvaXChainToPChain, getCurrentPayerNonce, hc, hx, hw, hga,
              hat, countEv, countEv_append, hwi]
          | ok n =>
            cases him : env.pchainImportAvaRes with
            | error e =>
              simp [TransferAvaXChainToPChain, getCurrentPayerNonce, hc, hx, hw, hga,
                hat, him, countEv, countEv_append, hwi]
            | ok t2 =>
              cases hiss : env.issueTxRes with
              | error e =>
                simp [TransferAvaXChainToPChain, getCurrentPayerNonce, hc, hx, hw,
                  hga, hat, him, hiss, countEv, countEv_append, hwi]
              | ok t3 =>
                have hwp : countEv Ev.importKeyEv
                    (waitForPchainNonZeroBalance T
                      (fun k => env.getAccountRes (k + 1)) pa).2 = 0 :=
                  countEv_waitP_zero T _ pa _ (by intro a; simp) (by simp)
                simp [TransferAvaXChainToPChain, getCurrentPayerNonce, hc, hx, hw,
                  hga, hat, him, hiss, countEv, countEv_append, hwi, hwp]

theorem validator_importKey_zero (T : Nat) (env : ValidatorEnv)
    (nodeId addr : String) (stake : Int) :
    countEv Ev.importKeyEv (AddValidatorOnSubnet T env nodeId addr stake).2 = 0 := by
  cases hga : env.getAccountRes with
  | error e =>
    simp [AddValidatorOnSubnet, getCurrentPayerNonce, hga, countEv]
  | ok info =>
    cases hat : goAtoi info.nonce with
    | error e =>
      simp [AddValidatorOnSubnet, getCurrentPayerNonce, hga, hat, countEv]
    | ok n =>
      cases h3 : env.addValidatorRes with
      | error e =>
        simp [AddValidatorOnSubnet, getCurrentPayerNonce, hga, hat, h3, countEv]
      | ok u =>
        cases h4 : env.signRes with
        | error e =>
          simp [AddValidatorOnSubnet, getCurrentPayerNonce, hga, hat, h3, h4, countEv]
        | ok sg =>
          cases h5 : env.issueTxRes with
          | error e =>
            simp [AddValidatorOnSubnet, getCurrentPayerNonce, hga, hat, h3, h4, h5,
              countEv]
          | ok i =>
            have hwv : countEv Ev.importKeyEv
                (waitForValidatorAddition T env.getCurrentValidatorsRes nodeId).2 = 0 :=
              countEv_waitV_zero T env.getCurrentValidatorsRes nodeId _
                (by simp) (by simp)
            simp [AddValidatorOnSubnet, getCurrentPayerNonce, hga, hat, h3, h4, h5,
              countEv, countEv_append, hwv]

/-- C8: GetFundsAndStartValidating runs exactly the sequence GetNodeId,
seed from genesis, transfer X-chain to P-chain, seed from genesis again,
register validator — each with its own oracle — returning the wrapped error
of the first failing step, with the trace stopping at that step; on full
success it returns nil and its trace contains exactly two ImportKey events,
one per genesis-seeding invocation (the seeding step runs exactly twice,
and nowhere else is the genesis key imported). -/
theorem GetFunds_sequence (T : Nat) (username : String) (env : GetFundsEnv)
    (seedAmount stakeAmount : Int) :
    (∀ e, env.getNodeIdRes = Except.error e →
      GetFundsAndStartValidating T username env seedAmount stakeAmount =
        (Except.error (propagate "Could not get staker node ID." e),
          [Ev.getNodeIdEv])) ∧
    (∀ nid e, env.getNodeIdRes = Except.ok nid →
      (CreateAndSeedXChainAccountFromGenesis T username env.seedEnv1 seedAmount).1 =
        Except.error e →
      GetFundsAndStartValidating T username env seedAmount stakeAmount =
        (Except.error (propagate "Could not seed XChain account from Genesis." e),
          Ev.getNodeIdEv ::
            (CreateAndSeedXChainAccountFromGenesis T username env.seedEnv1
              seedAmount).2)) ∧
    (∀ nid a1 e, env.getNodeIdRes = Except.ok nid →
      (CreateAndSeedXChainAccountFromGenesis T username env.seedEnv1 seedAmount).1 =
        Except.ok a1 →
      (TransferAvaXChainToPChain T env.transferEnv seedAmount).1 = Except.error e →
      GetFundsAndStartValidating T username env seedAmount stakeAmount =
        (Except.error (propagate
          "Could not transfer AVA from XChain to PChain account information" e),
          Ev.getNodeIdEv ::
            (CreateAndSeedXChainAccountFromGenesis T username env.seedEnv1
              seedAmount).2 ++
            (TransferAvaXChainToPChain T env.transferEnv seedAmount).2)) ∧
    (∀ nid a1 pa e, env.getNodeIdRes = Except.ok nid →
      (CreateAndSeedXChainAccountFromGenesis T username env.seedEnv1 seedAmount).1 =
        Except.ok a1 →
      (TransferAvaXChainToPChain T env.transferEnv seedAmount).1 = Except.ok pa →
      (CreateAndSeedXChainAccountFromGenesis T username env.validatorSeedEnv
        seedAmount).1 = Except.error e →
      (GetFundsAndStartValidating T username env seedAmount stakeAmount).1 =
        Except.error (propagate "Could not seed XChain account from Genesis." e)) ∧
    (∀ nid a1 pa a2 e, env.getNodeIdRes = Except.ok nid →
      (CreateAndSeedXChainAccountFromGenesis T username env.seedEnv1 seedAmount).1 =
        Except.ok a1 →
      (TransferAvaXChainToPChain T env.transferEnv seedAmount).1 = Except.ok pa →
      (CreateAndSeedXChainAccountFromGenesis T username env.validatorSeedEnv
        seedAmount).1 = Except.ok a2 →
      (AddValidatorOnSubnet T env.validatorEnv nid pa stakeAmount).1 =
        Except.error e →
      (GetFundsAndStartValidating T username env seedAmount stakeAmount).1 =
        Except.error (propagate
          ("Could not add staker " ++ nid ++ " to default subnet.") e)) ∧
    (∀ nid a1 pa a2, env.getNodeIdRes = Except.ok nid →
      (CreateAndSeedXChainAccountFromGenesis T username env.seedEnv1 seedAmount).1 =
        Except.ok a1 →
      (TransferAvaXChainToPChain T env.transferEnv seedAmount).1 = Except.ok pa →
      (CreateAndSeedXChainAccountFromGenesis T username env.validatorSeedEnv
        seedAmount).1 = Except.ok a2 →
      (AddValidatorOnSubnet T env.validatorEnv nid pa stakeAmount).1 =
        Except.ok () →
      (GetFundsAndStartValidating T username env seedAmount stakeAmount).1 =
        Except.ok () ∧
      countEv Ev.importKeyEv
        (GetFundsAndStartValidating T username env seedAmount stakeAmount).2 = 2) := by
  refine ⟨fun e h1 => ?_, fun nid e h1 h2 => ?_, fun nid a1 e h1 h2 h3 => ?_,
    fun nid a1 pa e h1 h2 h3 h4 => ?_, fun nid a1 pa a2 e h1 h2 h3 h4 h5 => ?_,
    fun nid a1 pa a2 h1 h2 h3 h4 h5 => ?_⟩
  · simp [GetFundsAndStartValidating, h1]
  · simp [GetFundsAndStartValidating, h1, h2]
  · simp [GetFundsAndStartValidating, h1, h2, h3]
  · simp [GetFundsAndStartValidating, h1, h2, h3, h4]
  · simp [GetFundsAndStartValidating, h1, h2, h3, h4, h5]
  · constructor
    · simp [GetFundsAndStartValidating, h1, h2, h3, h4, h5]
    · have htr : (GetFundsAndStartValidating T username env seedAmount stakeAmount).2 =
          Ev.getNodeIdEv ::
            (CreateAndSeedXChainAccountFromGenesis T username env.seedEnv1
              seedAmount).2 ++
            (TransferAvaXChainToPChain T env.transferEnv seedAmount).2 ++
            (CreateAndSeedXChainAccountFromGenesis T username env.validatorSeedEnv
              seedAmount).2 ++
            (AddValidatorOnSubnet T env.validatorEnv nid pa stakeAmount).2 := by
        simp [GetFundsAndStartValidating, h1, h2, h3, h4, h5]
      rw [htr]
      have hs1 := (seed_counts T username env.seedEnv1 seedAmount).2.2 ⟨a1, h2⟩
      have hs2 := (seed_counts T username env.validatorSeedEnv seedAmount).2.2 ⟨a2, h4⟩
      have htz := transfer_importKey_zero T env.transferEnv seedAmount
      have hvz := validator_importKey_zero T env.validatorEnv nid pa stakeAmount
      simp [countEv, countEv_append, hs1, hs2, htz, hvz]

/-- Witness for C8: a fully successful concrete run returns nil and its
trace holds exactly two ImportKey events. -/
theorem GetFunds_sequence_witness :
    (GetFundsAndStartValidating 1 "u9" c8Env 5 6).1 = Except.ok () ∧
    countEv Ev.importKeyEv (GetFundsAndStartValidating 1 "u9" c8Env 5 6).2 = 2 :=
  (GetFunds_sequence 1 "u9" c8Env 5 6).2.2.2.2.2 "node4" "addr9" "px4" "addr9"
    rfl rfl rfl rfl rfl

end AvaE2e
